import Mathlib

/-!
# VCTRenderer: shadow-map renderer and voxel fragment list

A shallow embedding of `engine/assets/code/renderers/shadow_map_renderer.cpp`
(`ShadowMapRenderer`) and of the voxel fragment counter that
`engine/rendering/voxel_renderer.h` declares.

Conventions of the embedding

* A `float` value is a rational number (infinities and NaN are not modelled).
  The arithmetic the code performs on floats rounds, so the glm operators it
  calls (`vec3 - vec3`, `vec3 * float`, `float * float`, `mat4 * mat4`) are
  fields of `Collab`, like every other library function; nothing is assumed
  about them. Negating a float is exact and is modelled as such.
* The operations `Vec3.sub`, `Vec3.scale`, `Vec3.dot`, `Mat4.mulVec`,
  `Mat4.mul` below are the exact operations of linear algebra. They are used
  to state geometric facts and never stand for an operator the code calls.
* `glm::vec3`, `glm::vec4` and `glm::mat4` are structures; a `glm::mat4` is
  stored column by column, as glm does, and the sixteen-scalar constructor
  fills it column by column.
* Objects reachable through pointers (cameras, lights, renderers) are referred
  to by references into the `World`; a null pointer is `none`.
* The OpenGL context is an explicit record; clears, draws and reported
  framebuffer errors are appended to an event trace.
* Library code that the translation unit calls but does not define (the glm
  operators, `glm::distance`, `Camera::ProjectionMatrix`,
  `Camera::ViewMatrix`, the driver's framebuffer status query) is a field of
  `Collab`, a parameter of every operation that uses it.
-/

namespace VCT

/-! ## glm vectors and matrices -/

/-- A `glm::vec3`. -/
structure Vec3 where
  x : ℚ
  y : ℚ
  z : ℚ
  deriving DecidableEq

/-- A `glm::vec4`. -/
structure Vec4 where
  x : ℚ
  y : ℚ
  z : ℚ
  w : ℚ
  deriving DecidableEq

/-- A `glm::uvec2`. -/
structure UVec2 where
  x : Nat
  y : Nat
  deriving DecidableEq

namespace Vec3

/-- Exact componentwise sum. -/
def add (a b : Vec3) : Vec3 := ⟨a.x + b.x, a.y + b.y, a.z + b.z⟩

/-- Exact componentwise difference (not the rounding `operator-` of glm). -/
def sub (a b : Vec3) : Vec3 := ⟨a.x - b.x, a.y - b.y, a.z - b.z⟩

/-- Unary minus, `-a`; negating a float is exact. -/
def neg (a : Vec3) : Vec3 := ⟨-a.x, -a.y, -a.z⟩

/-- Exact product of a vector and a scalar (not the rounding `operator*` of glm). -/
def scale (a : Vec3) (s : ℚ) : Vec3 := ⟨a.x * s, a.y * s, a.z * s⟩

/-- The exact dot product. -/
def dot (a b : Vec3) : ℚ := a.x * b.x + a.y * b.y + a.z * b.z

instance : Add Vec3 := ⟨add⟩
instance : Sub Vec3 := ⟨sub⟩
instance : Neg Vec3 := ⟨neg⟩
instance : HMul Vec3 ℚ Vec3 := ⟨scale⟩

end Vec3

namespace Vec4

/-- Exact componentwise sum. -/
def add (a b : Vec4) : Vec4 := ⟨a.x + b.x, a.y + b.y, a.z + b.z, a.w + b.w⟩

/-- Exact product of a vector and a scalar. -/
def scale (a : Vec4) (s : ℚ) : Vec4 := ⟨a.x * s, a.y * s, a.z * s, a.w * s⟩

end Vec4

/-- A `glm::mat4`: four columns. -/
structure Mat4 where
  c0 : Vec4
  c1 : Vec4
  c2 : Vec4
  c3 : Vec4
  deriving DecidableEq

namespace Mat4

/-- The sixteen-scalar constructor `glm::mat4(x0, y0, z0, w0, x1, ...)`:
the arguments are taken column by column. -/
def ofScalars (x0 y0 z0 w0 x1 y1 z1 w1 x2 y2 z2 w2 x3 y3 z3 w3 : ℚ) : Mat4 :=
  ⟨⟨x0, y0, z0, w0⟩, ⟨x1, y1, z1, w1⟩, ⟨x2, y2, z2, w2⟩, ⟨x3, y3, z3, w3⟩⟩

/-- The exact image of the column vector `v` under `m`: the combination of the
columns of `m` weighted by the components of `v`. -/
def mulVec (m : Mat4) (v : Vec4) : Vec4 :=
  Vec4.add (Vec4.add (Vec4.add (m.c0.scale v.x) (m.c1.scale v.y)) (m.c2.scale v.z))
    (m.c3.scale v.w)

/-- The exact matrix product: column `i` of the result is the image of `b.ci`
under `a` (not the rounding `operator*` of glm). -/
def mul (a b : Mat4) : Mat4 :=
  ⟨a.mulVec b.c0, a.mulVec b.c1, a.mulVec b.c2, a.mulVec b.c3⟩

/-- The identity matrix, `glm::mat4(1)`. -/
def one : Mat4 := ofScalars 1 0 0 0 0 1 0 0 0 0 1 0 0 0 0 1

instance : Mul Mat4 := ⟨mul⟩

end Mat4

/-! ## Collaborators of the renderer -/

/-- The enumeration `Camera::ProjectionMode`. -/
inductive ProjectionMode where
  | Perspective
  | Orthographic
  deriving DecidableEq

/-- The `transform` member of a camera, as far as `Render` writes it. -/
structure Transform where
  position : Vec3
  forward : Vec3
  deriving DecidableEq

/-- Modelled from the spec: the `Camera` class (`camera.h` is not part of the
sources). The attributes are those the data model lists for the light camera:
position, forward direction, near and far clip planes, orthographic rectangle,
projection mode. The setters used by `Render` store their argument. -/
structure Camera where
  transform : Transform
  clipPlaneNear : ℚ
  clipPlaneFar : ℚ
  orthoRect : Vec4
  projection : ProjectionMode
  deriving DecidableEq

/-- Modelled from the spec: a `Light`, with the world-space vector that
`Direction()` returns. -/
structure Light where
  Direction : Vec3
  deriving DecidableEq

/-- The bounding volume of a node, with the points `Center()` and `MaxPoint()`
return. -/
structure BoundingBox where
  Center : Vec3
  MaxPoint : Vec3
  deriving DecidableEq

/-- Modelled from the spec: the root node of a scene. `boundaries` is the
bounding volume; `drawList` lists, in traversal order, the model matrices of
the nodes the recursive `DrawList()` draws. -/
structure Node where
  boundaries : BoundingBox
  drawList : List Mat4
  deriving DecidableEq

/-- Modelled from the spec: a `Scene`, with `IsLoaded()` and `rootNode`. -/
structure Scene where
  IsLoaded : Bool
  rootNode : Node
  deriving DecidableEq

/-- A pointer to a camera object: either a camera owned by somebody else, or
the `lightView` member of the shadow-map renderer at the given address. -/
inductive CameraRef where
  | object (addr : Nat)
  | lightView (renderer : Nat)
  deriving DecidableEq

/-- A shader program held by the assets manager. `Depth` is the entry
`assets->programs["Depth"]` that `DepthShader()` resolves. -/
inductive ProgramRef where
  | Depth
  | other (id : Nat)
  deriving DecidableEq

/-! ## OpenGL context -/

/-- The enumeration `oglplus::Face`. -/
inductive Face where
  | Front
  | Back
  | FrontAndBack
  deriving DecidableEq

/-- The enumeration `oglplus::FramebufferStatus`, the values `glCheckFramebufferStatus` returns. -/
inductive FramebufferStatus where
  | Complete
  | Undefined
  | IncompleteAttachment
  | IncompleteMissingAttachment
  | Unsupported
  | IncompleteMultisample
  | IncompleteLayerTargets
  deriving DecidableEq

/-- The enumeration `oglplus::ColorBuffer`, as far as `glDrawBuffer` is used here. -/
inductive ColorBuffer where
  | None
  | Back
  | Front
  deriving DecidableEq

/-- The state of a 2D texture object that `CreateFramebuffer` sets. -/
structure TextureState where
  width : Nat
  height : Nat
  depthComponent24 : Bool
  minFilterLinear : Bool
  magFilterLinear : Bool
  wrapSClampToEdge : Bool
  wrapTClampToEdge : Bool
  compareRefToTexture : Bool
  compareFuncLEqual : Bool
  deriving DecidableEq

/-- What the trace of the context records. -/
inductive GLEvent where
  /-- The call `gl.Clear().DepthBuffer()` on the bound draw framebuffer. -/
  | clearDepth (framebuffer : Nat)
  /-- The draw call of one node, with the program in use and the value of its
  `modelViewProjection` uniform. -/
  | draw (framebuffer : Nat) (program : Option ProgramRef) (mvp : Option Mat4)
  /-- The call `Framebuffer::HandleIncompleteError(Draw, status)`, made while
  `framebuffer` was the draw target. -/
  | incompleteError (framebuffer : Nat) (status : FramebufferStatus)
  deriving DecidableEq

/-- The OpenGL context. Framebuffer name `0` is the default framebuffer. -/
structure GLContext where
  drawFramebuffer : Nat
  colorMask : Bool × Bool × Bool × Bool
  viewport : Nat × Nat
  clearColor : ℚ × ℚ × ℚ × ℚ
  depthTest : Bool
  cullFace : Bool
  cullFaceMode : Face
  drawBuffer : Nat → ColorBuffer
  activeTextureUnit : Nat
  texture2D : Nat → Nat
  textures : Nat → TextureState
  depthAttachment : Nat → Option Nat
  trace : List GLEvent

/-! ## The renderer and the process-wide state -/

/-- The data members of `ShadowMapRenderer`. `shadowCaster` is the borrowed
`const Light *` (`none` is `nullptr`); `shadowFramebuffer` and `renderDepth`
are the names of the framebuffer and texture objects the renderer owns. -/
structure ShadowMapRenderer where
  shadowCaster : Option Nat
  lightView : Camera
  shadowFramebuffer : Nat
  renderDepth : Nat
  shadowMapSize : UVec2
  lightSpaceMatrix : Mat4

/-- Everything the renderer reads or writes: the process-wide selections
(`Camera::Active()`, `Scene::Active()`, the current program, the active
renderer), the OpenGL context, and the objects behind the pointers. -/
structure World where
  activeCamera : Option CameraRef
  cameras : Nat → Camera
  lights : Nat → Light
  activeScene : Option Scene
  currentProgram : Option ProgramRef
  modelViewProjection : ProgramRef → Mat4
  activeRenderer : Option Nat
  gl : GLContext
  renderers : Nat → ShadowMapRenderer

/-- Library functions the translation unit calls but does not define. -/
structure Collab where
  /-- The operator `glm::vec3 - glm::vec3`. -/
  sub : Vec3 → Vec3 → Vec3
  /-- The operator `glm::vec3 * float`. -/
  scale : Vec3 → ℚ → Vec3
  /-- The operator `float * float`. -/
  mul : ℚ → ℚ → ℚ
  /-- The operator `glm::mat4 * glm::mat4`. -/
  matMul : Mat4 → Mat4 → Mat4
  /-- The function `glm::distance` on `vec3`. -/
  distance : Vec3 → Vec3 → ℚ
  /-- The accessor `Camera::ProjectionMatrix()`, a function of the camera's attributes. -/
  ProjectionMatrix : Camera → Mat4
  /-- The accessor `Camera::ViewMatrix()`, a function of the camera's attributes. -/
  ViewMatrix : Camera → Mat4
  /-- The driver's answer to `glCheckFramebufferStatus(GL_DRAW_FRAMEBUFFER)`. -/
  CheckFramebufferStatus : GLContext → FramebufferStatus

namespace World

/-- Dereference a camera pointer. -/
def camera (w : World) : CameraRef → Camera
  | .object addr => w.cameras addr
  | .lightView renderer => (w.renderers renderer).lightView

/-- Apply a change to the OpenGL context. -/
def withGL (w : World) (f : GLContext → GLContext) : World :=
  { w with gl := f w.gl }

/-- Apply a change to the members of the renderer at `self`. -/
def withRenderer (w : World) (self : Nat) (f : ShadowMapRenderer → ShadowMapRenderer) :
    World :=
  { w with renderers := Function.update w.renderers self (f (w.renderers self)) }

/-- Apply a change to the `lightView` member of the renderer at `self`. -/
def withLightView (w : World) (self : Nat) (f : Camera → Camera) : World :=
  w.withRenderer self (fun r => { r with lightView := f r.lightView })

end World

namespace GLContext

/-- The call `framebuffer.Bind(FramebufferTarget::Draw)`. -/
def BindDraw (name : Nat) (gl : GLContext) : GLContext :=
  { gl with drawFramebuffer := name }

/-- The call `gl.ColorMask(r, g, b, a)`. -/
def ColorMask (r g b a : Bool) (gl : GLContext) : GLContext :=
  { gl with colorMask := (r, g, b, a) }

/-- The call `gl.Viewport(width, height)`. -/
def Viewport (width height : Nat) (gl : GLContext) : GLContext :=
  { gl with viewport := (width, height) }

/-- The call `gl.ClearColor(r, g, b, a)`. -/
def ClearColor (r g b a : ℚ) (gl : GLContext) : GLContext :=
  { gl with clearColor := (r, g, b, a) }

/-- The call `gl.Clear().DepthBuffer()`: clears the depth buffer of the bound draw
framebuffer. -/
def ClearDepthBuffer (gl : GLContext) : GLContext :=
  { gl with trace := gl.trace ++ [GLEvent.clearDepth gl.drawFramebuffer] }

/-- The call `gl.Enable(Capability::DepthTest)`. -/
def EnableDepthTest (gl : GLContext) : GLContext :=
  { gl with depthTest := true }

/-- The call `gl.Enable(Capability::CullFace)`. -/
def EnableCullFace (gl : GLContext) : GLContext :=
  { gl with cullFace := true }

/-- The call `gl.CullFace(face)`. -/
def CullFace (face : Face) (gl : GLContext) : GLContext :=
  { gl with cullFaceMode := face }

/-- The call `texture.Active(unit)`: selects the active texture unit. -/
def ActiveTexture (unit : Nat) (gl : GLContext) : GLContext :=
  { gl with activeTextureUnit := unit }

/-- Bind a texture to `TextureTarget::_2D` of the active unit. -/
def BindTexture2D (name : Nat) (gl : GLContext) : GLContext :=
  { gl with texture2D := Function.update gl.texture2D gl.activeTextureUnit name }

/-- Apply a change to the texture bound to `TextureTarget::_2D` of the active unit. -/
def withBoundTexture2D (f : TextureState → TextureState) (gl : GLContext) : GLContext :=
  let name := gl.texture2D gl.activeTextureUnit
  { gl with textures := Function.update gl.textures name (f (gl.textures name)) }

/-- The chain `.Image2D(0, DepthComponent24, w, h, 0, DepthComponent, Float, nullptr)
.MinFilter(Linear).MagFilter(Linear).WrapS(ClampToEdge).WrapT(ClampToEdge)
.CompareMode(CompareRefToTexture).CompareFunc(LEqual)` on the bound 2D texture. -/
def DepthImage2D (w h : Nat) (gl : GLContext) : GLContext :=
  gl.withBoundTexture2D (fun _ =>
    { width := w, height := h, depthComponent24 := true,
      minFilterLinear := true, magFilterLinear := true,
      wrapSClampToEdge := true, wrapTClampToEdge := true,
      compareRefToTexture := true, compareFuncLEqual := true })

/-- The call `framebuffer.AttachTexture(Draw, FramebufferAttachment::Depth, texture, 0)`:
attaches to the bound draw framebuffer. -/
def AttachDepthTexture (texture : Nat) (gl : GLContext) : GLContext :=
  { gl with
    depthAttachment := Function.update gl.depthAttachment gl.drawFramebuffer (some texture) }

/-- The call `gl.DrawBuffer(buffer)`: state of the bound draw framebuffer. -/
def DrawBuffer (buffer : ColorBuffer) (gl : GLContext) : GLContext :=
  { gl with drawBuffer := Function.update gl.drawBuffer gl.drawFramebuffer buffer }

end GLContext

/-! ## Operations of `ShadowMapRenderer` -/

/-- The raised `oglplus::IncompleteFramebuffer`: the status handed to the error
handler and the state in which it was raised. -/
structure IncompleteFramebuffer where
  status : FramebufferStatus
  world : World

/-- Modelled from the spec: `Renderer::SetAsActive()` of the base class
(`renderer.h` is not part of the sources) selects this renderer as the one
whose uniform hooks the scene traversal invokes. -/
def SetAsActive (self : Nat) (w : World) : World :=
  { w with activeRenderer := some self }

/-- Modelled from the spec: `Camera::SetAsActive()` makes the camera the one
`Camera::Active()` returns. -/
def CameraSetAsActive (camera : CameraRef) (w : World) : World :=
  { w with activeCamera := some camera }

/-- The program `DepthShader()` returns: the assets manager's entry `"Depth"`. -/
def DepthShader : ProgramRef := ProgramRef.Depth

/-- The call `CurrentProgram<T>(program)`: selects the current program. -/
def CurrentProgram (program : ProgramRef) (w : World) : World :=
  { w with currentProgram := some program }

/-- The method `ShadowMapRenderer::SetMatricesUniforms(node)` (lines 13-20):
sets the current program's `modelViewProjection` uniform to
`projection * view * model`, projection and view being those of the active
camera. Without a current program or an
active camera the source dereferences a null pointer; the model leaves the state
as it is. -/
def SetMatricesUniforms (c : Collab) (modelMatrix : Mat4) (w : World) : World :=
  match w.currentProgram, w.activeCamera with
  | some prog, some camera =>
    { w with
      modelViewProjection := Function.update w.modelViewProjection prog
        (c.matMul (c.matMul (c.ProjectionMatrix (w.camera camera))
          (c.ViewMatrix (w.camera camera))) modelMatrix) }
  | _, _ => w

/-- Modelled from the spec: the draw of one node by `DrawList()`: the uniform hook
of the renderer runs, then the node's geometry is drawn into the bound draw
framebuffer. -/
def drawNode (c : Collab) (w : World) (modelMatrix : Mat4) : World :=
  let w1 := SetMatricesUniforms c modelMatrix w
  w1.withGL (fun gl =>
    { gl with
      trace := gl.trace ++
        [GLEvent.draw gl.drawFramebuffer w1.currentProgram
          (w1.currentProgram.map w1.modelViewProjection)] })

/-- Modelled from the spec: `rootNode->DrawList()`, the recursive draw of the
scene tree, one draw per node in traversal order. -/
def DrawList (c : Collab) (root : Node) (w : World) : World :=
  root.drawList.foldl (drawNode c) w

/-- The method `ShadowMapRenderer::Render()` (lines 22-64). The three `static`
locals are handles on the context and on the holders of the active scene and
camera; they hold no state of their own. -/
def Render (c : Collab) (self : Nat) (w : World) : World :=
  match w.activeCamera, w.activeScene, (w.renderers self).shadowCaster with
  | some camera, some scene, some shadowCaster =>
    if !scene.IsLoaded then w
    else
      let w := SetAsActive self w
      let w := CameraSetAsActive (CameraRef.lightView self) w
      let w := w.withGL (GLContext.BindDraw (w.renderers self).shadowFramebuffer)
      let w := w.withGL (GLContext.ColorMask false false false false)
      let w := w.withGL (GLContext.Viewport (w.renderers self).shadowMapSize.x
        (w.renderers self).shadowMapSize.y)
      let w := w.withGL (GLContext.ClearColor 0 0 0 0)
      let w := w.withGL GLContext.ClearDepthBuffer
      -- activate geometry pass shader program
      let w := CurrentProgram DepthShader w
      -- rendering flags
      let w := w.withGL GLContext.EnableDepthTest
      let w := w.withGL GLContext.EnableCullFace
      let w := w.withGL (GLContext.CullFace Face.Front)
      -- scene spatial cues
      let sceneBB := scene.rootNode.boundaries
      let center := sceneBB.Center
      let radius := c.distance center sceneBB.MaxPoint
      let direction := -(w.lights shadowCaster).Direction
      -- fix light frustum to fit scene bounding sphere
      let w := w.withLightView self
        (fun cam => { cam with orthoRect := ⟨-radius, radius, -radius, radius⟩ })
      let w := w.withLightView self (fun cam => { cam with clipPlaneNear := -radius })
      let w := w.withLightView self (fun cam => { cam with clipPlaneFar := c.mul 2 radius })
      let w := w.withLightView self
        (fun cam => { cam with projection := ProjectionMode.Orthographic })
      let w := w.withLightView self
        (fun cam => { cam with
          transform :=
            { cam.transform with position := c.sub center (c.scale direction radius) } })
      let w := w.withLightView self
        (fun cam => { cam with transform := { cam.transform with forward := direction } })
      -- draw whole scene tree from root node
      let w := DrawList c scene.rootNode w
      -- recover original render camera
      let w := CameraSetAsActive camera w
      w.withGL (GLContext.BindDraw 0)
  | _, _, _ => w

/-- The setter `ShadowMapRenderer::Caster(caster)` (lines 66-69): records the
borrowed light. -/
def Caster (self : Nat) (caster : Option Nat) (w : World) : World :=
  w.withRenderer self (fun r => { r with shadowCaster := caster })

/-- The function-local `static glm::mat4 biasMatrix` of `LightSpaceMatrix`. -/
def biasMatrix : Mat4 :=
  Mat4.ofScalars (1/2) 0 0 0
                 0 (1/2) 0 0
                 0 0 (1/2) 0
                 (1/2) (1/2) (1/2) 1

/-- The method `ShadowMapRenderer::LightSpaceMatrix()` (lines 71-79): assigns
the member `lightSpaceMatrix` and returns it. -/
def LightSpaceMatrix (c : Collab) (self : Nat) (w : World) : Mat4 × World :=
  let m := c.matMul (c.matMul biasMatrix (c.ProjectionMatrix (w.renderers self).lightView))
    (c.ViewMatrix (w.renderers self).lightView)
  (m, w.withRenderer self (fun r => { r with lightSpaceMatrix := m }))

/-- The method `ShadowMapRenderer::BindReading(unit)` (lines 86-90). -/
def BindReading (self : Nat) (unit : Nat) (w : World) : World :=
  let w := w.withGL (GLContext.ActiveTexture unit)
  w.withGL (GLContext.BindTexture2D (w.renderers self).renderDepth)

/-- The query `Framebuffer::IsComplete(FramebufferTarget::Draw)`. -/
def IsComplete (c : Collab) (w : World) : Bool :=
  c.CheckFramebufferStatus w.gl == FramebufferStatus.Complete

/-- The query `Framebuffer::Status(FramebufferTarget::Draw)`. -/
def Status (c : Collab) (w : World) : FramebufferStatus :=
  c.CheckFramebufferStatus w.gl

/-- Modelled from the spec: `Framebuffer::HandleIncompleteError(Draw, status)`
(oglplus; its definition is not part of the sources) reports the status and
halts: it never returns to its caller. -/
def HandleIncompleteError (status : FramebufferStatus) (w : World) :
    Except IncompleteFramebuffer World :=
  Except.error
    { status := status
      world := w.withGL (fun gl =>
        { gl with trace := gl.trace ++ [GLEvent.incompleteError gl.drawFramebuffer status] }) }

/-- The method `ShadowMapRenderer::CreateFramebuffer(w, h)` (lines 120-147);
`width` and `height` are the `unsigned` arguments. -/
def CreateFramebuffer (c : Collab) (self : Nat) (width height : Nat) (w : World) :
    Except IncompleteFramebuffer World := do
  let w := w.withRenderer self (fun r => { r with shadowMapSize := ⟨width, height⟩ })
  let w := w.withGL (GLContext.BindDraw (w.renderers self).shadowFramebuffer)
  let w := w.withGL (GLContext.BindTexture2D (w.renderers self).renderDepth)
  let w := w.withGL (GLContext.DepthImage2D width height)
  let w := w.withGL (GLContext.AttachDepthTexture (w.renderers self).renderDepth)
  let w := w.withGL (GLContext.DrawBuffer ColorBuffer.None)
  -- check if success building frame buffer
  let w ← (if !IsComplete c w then
      let status := Status c w
      HandleIncompleteError status w
    else pure w)
  pure (w.withGL (GLContext.BindDraw 0))

/-- The constructor `ShadowMapRenderer(window)` (lines 102-106): `members` holds
the default-constructed members of the new object at address `self`. -/
def construct (c : Collab) (self : Nat) (members : ShadowMapRenderer) (w : World) :
    Except IncompleteFramebuffer World :=
  let w := { w with
    renderers := Function.update w.renderers self { members with shadowCaster := none } }
  CreateFramebuffer c self 2048 2048 w

/-- A finite sequence of `Render()` calls, on the renderers at the listed
addresses, in order. -/
def RenderAll (c : Collab) (calls : List Nat) (w : World) : World :=
  calls.foldl (fun w self => Render c self w) w

/-! ## The voxel fragment list

`voxel_renderer.h` declares `VoxelizeScene`, `BuildAtomicBuffer` and
`BuildVoxelList`; their bodies and the voxelization shader are not part of the
sources. The list-build pass is modelled from the specification: every
rendered fragment runs one shader invocation, which first claims a slot with
one interlocked increment of the atomic counter and then stores its
attributes into that slot of the linear buffers. Invocations are interleaved
by a schedule, a list of invocation indices: each entry lets that invocation
take its next step. -/

/-- Modelled from the spec: the attributes a fragment stores (position, albedo
and normal, one per linear buffer). -/
structure VoxelFragment where
  position : Vec3
  albedo : Vec4
  normal : Vec3
  deriving DecidableEq

/-- Modelled from the spec: how far a fragment's shader invocation has got: not
yet at the counter, holding a claimed slot, or done with its store. -/
inductive Invocation where
  | pending
  | claimed (slot : Nat)
  | written (slot : Nat)
  deriving DecidableEq

/-- The slot an invocation holds, if it has claimed one. -/
def Invocation.slot : Invocation → Option Nat
  | .pending => none
  | .claimed k => some k
  | .written k => some k

/-- The number of steps an invocation has taken. -/
def Invocation.stage : Invocation → Nat
  | .pending => 0
  | .claimed _ => 1
  | .written _ => 2

/-- Modelled from the spec: the state of the list-build pass: the value of the
atomic counter in `atomicBuffer`, the stores made into the linear buffers
(`voxelPositionTBuffer`, `voxelAlbedoTBuffer`, `voxelNormalTBuffer`) as pairs of
slot and attributes in the order they happened, and the progress of every
invocation. -/
structure VoxelList where
  atomicCounter : Nat
  writes : List (Nat × VoxelFragment)
  progress : Nat → Invocation

/-- Modelled from the spec: `BuildAtomicBuffer` resets the fragment counter to
zero. -/
def BuildAtomicBuffer (s : VoxelList) : VoxelList :=
  { s with atomicCounter := 0 }

/-- Modelled from the spec: one step of the invocation of fragment `i`. A
pending invocation increments the counter atomically and holds the slot the
increment replaced; an invocation holding a slot stores its fragment there; a
finished invocation, or an index that is no fragment, does nothing. -/
def invoke (fragments : List VoxelFragment) (s : VoxelList) (i : Nat) : VoxelList :=
  match fragments[i]?, s.progress i with
  | some _, Invocation.pending =>
    { s with
      atomicCounter := s.atomicCounter + 1
      progress := Function.update s.progress i (Invocation.claimed s.atomicCounter) }
  | some f, Invocation.claimed k =>
    { s with
      writes := s.writes ++ [(k, f)]
      progress := Function.update s.progress i (Invocation.written k) }
  | _, _ => s

/-- Modelled from the spec: `BuildVoxelList` renders the fragments: all their
invocations start pending, nothing is stored yet, and the schedule interleaves
their steps. -/
def BuildVoxelList (fragments : List VoxelFragment) (schedule : List Nat) (s : VoxelList) :
    VoxelList :=
  schedule.foldl (invoke fragments)
    { s with writes := [], progress := fun _ => Invocation.pending }

/-- Modelled from the spec: the list-build phase of `VoxelizeScene()`: the
counter is reset, then the fragments of the three axis passes are rendered. -/
def VoxelizeScene (passX passY passZ : List VoxelFragment) (schedule : List Nat)
    (s : VoxelList) : VoxelList :=
  BuildVoxelList (passX ++ passY ++ passZ) schedule (BuildAtomicBuffer s)

/-! ## A concrete world for the examples -/

/-- The largest `k` with `k * k ≤ n`. -/
def floorSqrt (n : Nat) : Nat :=
  (List.range (n + 1)).foldl (fun r k => if k * k ≤ n then k else r) 0

/-- The Euclidean distance of two points, exact whenever it is rational (and
rounded towards zero on the numerator otherwise). -/
def euclid (a b : Vec3) : ℚ :=
  let q := Vec3.dot (a - b) (a - b)
  (floorSqrt (q.num.toNat * q.den) : ℚ) / q.den

/-! ### Binary32 arithmetic for the examples

The examples run the code with IEEE 754 binary32 arithmetic: every operation
returns the exact result rounded to the nearest binary32 number, ties to the
even significand. Results beyond the binary32 range (overflow to infinity) do
not occur in the examples and are not modelled. -/

/-- The quotient `N / D` rounded to the nearest natural number, ties to even. -/
def roundHalfEven (N D : Nat) : Nat :=
  if 2 * (N % D) < D then N / D
  else if D < 2 * (N % D) then N / D + 1
  else N / D + (N / D) % 2

/-- The position of the leading binary digit of `n` (`0` for `n < 2`), found in at
most `fuel` halvings. -/
def ilog2 : Nat → Nat → Nat
  | 0, _ => 0
  | fuel + 1, n => if n < 2 then 0 else ilog2 fuel (n / 2) + 1

/-- The binary32 number nearest to the positive rational `n / d`, as a pair of
significand and exponent: the value is `significand * 2 ^ exponent`. The
exponent is that of the last of 24 significant bits, and at least `-149`
(subnormal numbers). -/
def fl32core (n d : Nat) : Nat × Int :=
  let a := ilog2 n n
  let b := ilog2 d d
  let k : Int := if d * 2 ^ a ≤ n * 2 ^ b then (a : Int) - b else (a : Int) - b - 1
  let u : Int := max (k - 23) (-149)
  (roundHalfEven (n * 2 ^ (-u).toNat) (d * 2 ^ u.toNat), u)

/-- Rounding to binary32: to nearest, ties to even. -/
def fl32 (q : ℚ) : ℚ :=
  if q = 0 then 0
  else (if q < 0 then -1 else 1) * ((fl32core q.num.natAbs q.den).1 : ℚ) *
    2 ^ (fl32core q.num.natAbs q.den).2

/-- The binary32 difference of two `vec3`, component by component. -/
def sub32 (a b : Vec3) : Vec3 := ⟨fl32 (a.x - b.x), fl32 (a.y - b.y), fl32 (a.z - b.z)⟩

/-- The binary32 product of a `vec3` and a scalar, component by component. -/
def scale32 (a : Vec3) (s : ℚ) : Vec3 := ⟨fl32 (a.x * s), fl32 (a.y * s), fl32 (a.z * s)⟩

/-- The binary32 product of two scalars. -/
def mul32 (a b : ℚ) : ℚ := fl32 (a * b)

/-- The binary32 sum of two `vec4`. -/
def vadd32 (a b : Vec4) : Vec4 :=
  ⟨fl32 (a.x + b.x), fl32 (a.y + b.y), fl32 (a.z + b.z), fl32 (a.w + b.w)⟩

/-- The binary32 product of a `vec4` and a scalar. -/
def vscale32 (a : Vec4) (s : ℚ) : Vec4 :=
  ⟨fl32 (a.x * s), fl32 (a.y * s), fl32 (a.z * s), fl32 (a.w * s)⟩

/-- The binary32 product of a `mat4` and a column: the scaled columns are added
from left to right. -/
def mulVec32 (m : Mat4) (v : Vec4) : Vec4 :=
  vadd32 (vadd32 (vadd32 (vscale32 m.c0 v.x) (vscale32 m.c1 v.y)) (vscale32 m.c2 v.z))
    (vscale32 m.c3 v.w)

/-- The binary32 product of two `mat4`, column by column. -/
def matMul32 (a b : Mat4) : Mat4 :=
  ⟨mulVec32 a b.c0, mulVec32 a b.c1, mulVec32 a b.c2, mulVec32 a b.c3⟩

/-- The matrix `glm::ortho(left, right, bottom, top, zNear, zFar)` in binary32. -/
def ortho32 (left right bottom top zNear zFar : ℚ) : Mat4 :=
  Mat4.ofScalars (fl32 (2 / fl32 (right - left))) 0 0 0
    0 (fl32 (2 / fl32 (top - bottom))) 0 0
    0 0 (-fl32 (2 / fl32 (zFar - zNear))) 0
    (-fl32 (fl32 (right + left) / fl32 (right - left)))
      (-fl32 (fl32 (top + bottom) / fl32 (top - bottom)))
      (-fl32 (fl32 (zFar + zNear) / fl32 (zFar - zNear))) 1

/-- The matrix of the translation by `-p`. -/
def translateBack (p : Vec3) : Mat4 :=
  Mat4.ofScalars 1 0 0 0 0 1 0 0 0 0 1 0 (-p.x) (-p.y) (-p.z) 1

/-- Collaborators for the examples: binary32 arithmetic for the glm operators,
the Euclidean distance (exact on the points of the examples, whose distances
are small integers), an orthographic projection over the camera's rectangle
and clip planes, the view matrix of an unrotated camera, and a driver that
reports a framebuffer complete when its depth attachment is a texture of
non-zero size. -/
def demoCollab : Collab where
  sub := sub32
  scale := scale32
  mul := mul32
  matMul := matMul32
  distance := euclid
  ProjectionMatrix := fun cam =>
    ortho32 cam.orthoRect.x cam.orthoRect.y cam.orthoRect.z cam.orthoRect.w
      cam.clipPlaneNear cam.clipPlaneFar
  ViewMatrix := fun cam => translateBack cam.transform.position
  CheckFramebufferStatus := fun gl =>
    match gl.depthAttachment gl.drawFramebuffer with
    | none => FramebufferStatus.IncompleteMissingAttachment
    | some t =>
      if (gl.textures t).width = 0 ∨ (gl.textures t).height = 0 then
        FramebufferStatus.IncompleteAttachment
      else FramebufferStatus.Complete

/-- A perspective camera at the origin. -/
def demoCamera : Camera where
  transform := ⟨⟨0, 0, 0⟩, ⟨0, 0, 1⟩⟩
  clipPlaneNear := 1 / 10
  clipPlaneFar := 100
  orthoRect := ⟨-1, 1, -1, 1⟩
  projection := ProjectionMode.Perspective

/-- A loaded scene: centre at the origin, far corner `(1, 2, 2)` (so the
bounding sphere has radius `3`), one node. -/
def demoScene : Scene where
  IsLoaded := true
  rootNode := ⟨⟨⟨0, 0, 0⟩, ⟨1, 2, 2⟩⟩, [Mat4.one]⟩

/-- A renderer with a caster, framebuffer `1`, depth texture `1`, size 2048 x 2048. -/
def demoRenderer : ShadowMapRenderer where
  shadowCaster := some 0
  lightView := demoCamera
  shadowFramebuffer := 1
  renderDepth := 1
  shadowMapSize := ⟨2048, 2048⟩
  lightSpaceMatrix := Mat4.one

/-- A context as a forward pass leaves it: default framebuffer bound, colour
writes on, window-sized viewport, no depth test, no culling. -/
def demoGL : GLContext where
  drawFramebuffer := 0
  colorMask := (true, true, true, true)
  viewport := (1280, 720)
  clearColor := (1, 1, 1, 1)
  depthTest := false
  cullFace := false
  cullFaceMode := Face.Back
  drawBuffer := fun _ => ColorBuffer.Back
  activeTextureUnit := 0
  texture2D := fun _ => 0
  textures := fun _ => ⟨0, 0, false, false, false, false, false, false, false⟩
  depthAttachment := fun _ => none
  trace := []

/-- A world in which `Render` has all it needs: camera `0` active, the demo
scene active and loaded, a light shining straight down, another program
current. -/
def demoWorld : World where
  activeCamera := some (CameraRef.object 0)
  cameras := fun _ => demoCamera
  lights := fun _ => ⟨⟨0, -1, 0⟩⟩
  activeScene := some demoScene
  currentProgram := some (ProgramRef.other 1)
  modelViewProjection := fun _ => Mat4.one
  activeRenderer := none
  gl := demoGL
  renderers := fun _ => demoRenderer

/-- The light camera `Render` leaves for a bounding sphere of radius `1`:
rectangle `(-1, 1, -1, 1)`, clip planes `-1` and `2`, here at position
`(-511.9f, -1883.5, -1049)`, where `511.9f = 16773939 / 32768` is the binary32
number nearest to `511.9`. -/
def unitCamera : Camera where
  transform := ⟨⟨-(16773939 / 32768), -(3767 / 2), -1049⟩, ⟨0, 0, -1⟩⟩
  clipPlaneNear := -1
  clipPlaneFar := 2
  orthoRect := ⟨-1, 1, -1, 1⟩
  projection := ProjectionMode.Orthographic

/-- The demo world with `unitCamera` as the light camera of every renderer. -/
def unitWorld : World :=
  { demoWorld with renderers := fun _ => { demoRenderer with lightView := unitCamera } }

/-- A light camera whose projection and view matrices have entries `0`, `1` and
`-1` only: rectangle `(-1, 1, -1, 1)`, clip planes `-1` and `1`, at the origin. -/
def cubeCamera : Camera where
  transform := ⟨⟨0, 0, 0⟩, ⟨0, 0, -1⟩⟩
  clipPlaneNear := -1
  clipPlaneFar := 1
  orthoRect := ⟨-1, 1, -1, 1⟩
  projection := ProjectionMode.Orthographic

/-- The demo world with `cubeCamera` as the light camera of every renderer. -/
def cubeWorld : World :=
  { demoWorld with renderers := fun _ => { demoRenderer with lightView := cubeCamera } }

/-- The demo world with the caster of every renderer cleared. -/
def idleWorld : World :=
  { demoWorld with renderers := fun _ => { demoRenderer with shadowCaster := none } }

/-! ## Summaries used in the proofs -/

/-- The light camera `Render` (lines 48-58) fits to a scene bounding volume and a
caster; `Render_frame` proves that this is what the code leaves. -/
def fitted (c : Collab) (scene : Scene) (light : Light) : Camera :=
  let center := scene.rootNode.boundaries.Center
  let radius := c.distance center scene.rootNode.boundaries.MaxPoint
  let direction := -light.Direction
  { transform := { position := c.sub center (c.scale direction radius), forward := direction }
    clipPlaneNear := -radius
    clipPlaneFar := c.mul 2 radius
    orthoRect := ⟨-radius, radius, -radius, radius⟩
    projection := ProjectionMode.Orthographic }


/-- The state `CreateFramebuffer(width, height)` has built when it asks whether
the draw framebuffer is complete: size recorded, shadow framebuffer bound,
depth texture specified and attached, colour output disabled. -/
def attached (self : Nat) (width height : Nat) (w : World) : World :=
  let w := w.withRenderer self (fun r => { r with shadowMapSize := ⟨width, height⟩ })
  let w := w.withGL (GLContext.BindDraw (w.renderers self).shadowFramebuffer)
  let w := w.withGL (GLContext.BindTexture2D (w.renderers self).renderDepth)
  let w := w.withGL (GLContext.DepthImage2D width height)
  let w := w.withGL (GLContext.AttachDepthTexture (w.renderers self).renderDepth)
  w.withGL (GLContext.DrawBuffer ColorBuffer.None)

/-! ## Voxel fragments for the examples -/

/-- A fragment of the first axis pass. -/
def fragA : VoxelFragment := ⟨⟨0, 0, 0⟩, ⟨1, 0, 0, 1⟩, ⟨1, 0, 0⟩⟩

/-- A fragment of the second axis pass. -/
def fragB : VoxelFragment := ⟨⟨1, 0, 0⟩, ⟨0, 1, 0, 1⟩, ⟨0, 1, 0⟩⟩

/-- A fragment of the third axis pass. -/
def fragC : VoxelFragment := ⟨⟨0, 1, 0⟩, ⟨0, 0, 1, 1⟩, ⟨0, 0, 1⟩⟩

/-- A fragment list left over from an earlier frame: counter at `7`. -/
def staleList : VoxelList where
  atomicCounter := 7
  writes := [(0, fragC)]
  progress := fun _ => Invocation.written 0

/-! ## Auxiliary lemmas -/

@[simp] theorem Vec3.sub_def (a b : Vec3) : a - b = ⟨a.x - b.x, a.y - b.y, a.z - b.z⟩ := rfl
@[simp] theorem Vec3.add_def (a b : Vec3) : a + b = ⟨a.x + b.x, a.y + b.y, a.z + b.z⟩ := rfl
@[simp] theorem Vec3.neg_def (a : Vec3) : -a = ⟨-a.x, -a.y, -a.z⟩ := rfl
@[simp] theorem Vec3.smul_def (a : Vec3) (s : ℚ) : a * s = ⟨a.x * s, a.y * s, a.z * s⟩ := rfl

theorem SetMatricesUniforms_eq (c : Collab) (m : Mat4) (w : World) :
    SetMatricesUniforms c m w =
      { w with modelViewProjection := (SetMatricesUniforms c m w).modelViewProjection } := by
  unfold SetMatricesUniforms
  split <;> rfl

theorem drawNode_frame (c : Collab) (w : World) (m : Mat4) :
    drawNode c w m =
      { w with
        modelViewProjection := (drawNode c w m).modelViewProjection
        gl := { w.gl with trace := (drawNode c w m).gl.trace } } := by
  unfold drawNode World.withGL
  rw [SetMatricesUniforms_eq]

/-- The scene draw changes nothing but the uniform store and the trace. -/
theorem DrawList_frame (c : Collab) (root : Node) (w : World) :
    DrawList c root w =
      { w with
        modelViewProjection := (DrawList c root w).modelViewProjection
        gl := { w.gl with trace := (DrawList c root w).gl.trace } } := by
  unfold DrawList
  generalize root.drawList = l
  induction l generalizing w with
  | nil => rfl
  | cons m l ih =>
    simp only [List.foldl_cons]
    rw [ih (drawNode c w m), drawNode_frame]

theorem Render_frame (c : Collab) (self : Nat) (w : World) (camera : CameraRef) (scene : Scene)
    (caster : Nat) (hcam : w.activeCamera = some camera) (hscene : w.activeScene = some scene)
    (hloaded : scene.IsLoaded = true) (hcaster : (w.renderers self).shadowCaster = some caster) :
    Render c self w =
      { w with
        activeCamera := some camera
        currentProgram := some DepthShader
        modelViewProjection := (Render c self w).modelViewProjection
        activeRenderer := some self
        gl := { w.gl with
          drawFramebuffer := 0
          colorMask := (false, false, false, false)
          viewport := ((w.renderers self).shadowMapSize.x, (w.renderers self).shadowMapSize.y)
          clearColor := (0, 0, 0, 0)
          depthTest := true
          cullFace := true
          cullFaceMode := Face.Front
          trace := (Render c self w).gl.trace }
        renderers := Function.update w.renderers self
          { w.renderers self with lightView := fitted c scene (w.lights caster) } } := by
  unfold Render
  simp only [hcam, hscene, hcaster, hloaded, Bool.not_true, Bool.false_eq_true, if_false]
  rw [DrawList_frame]
  simp [World.withGL, World.withLightView, World.withRenderer, CameraSetAsActive, SetAsActive,
    CurrentProgram, GLContext.BindDraw, GLContext.ColorMask, GLContext.Viewport,
    GLContext.ClearColor, GLContext.ClearDepthBuffer, GLContext.EnableDepthTest,
    GLContext.EnableCullFace, GLContext.CullFace, fitted, hscene, hcaster]

theorem euclid_demo : euclid ⟨0, 0, 0⟩ ⟨1, 2, 2⟩ = 3 := by
  have h : floorSqrt (Int.toNat 9) = 3 := by decide
  norm_num [euclid, Vec3.dot, h]


/-! ### Binary32 values used by the examples -/

theorem fl32_zero : fl32 0 = 0 := by simp [fl32]

theorem fl32_three : fl32 3 = 3 := by
  have h : fl32core 3 1 = (12582912, -22) := by decide
  norm_num [fl32, h]

theorem fl32_neg_three : fl32 (-3) = -3 := by
  have h : fl32core 3 1 = (12582912, -22) := by decide
  norm_num [fl32, h]

theorem fl32_six : fl32 6 = 6 := by
  have h : fl32core 6 1 = (12582912, -21) := by decide
  norm_num [fl32, h]

theorem fl32_one : fl32 1 = 1 := by
  have h : fl32core 1 1 = (8388608, -23) := by decide
  norm_num [fl32, h]

theorem fl32_two : fl32 2 = 2 := by
  have h : fl32core 2 1 = (8388608, -22) := by decide
  norm_num [fl32, h]

theorem fl32_half : fl32 (1 / 2) = 1 / 2 := by
  have h : fl32core 1 2 = (8388608, -24) := by decide
  norm_num [fl32, h]

/-- The binary32 number nearest to `2 / 3`. -/
theorem fl32_two_thirds : fl32 (2 / 3) = 11184811 / 16777216 := by
  have h : fl32core 2 3 = (11184811, -24) := by decide
  norm_num [fl32, h]

/-- The binary32 number nearest to `1 / 3`. -/
theorem fl32_third : fl32 (1 / 3) = 11184811 / 33554432 := by
  have h : fl32core 1 3 = (11184811, -25) := by decide
  norm_num [fl32, h]

/-- Half of `511.9f` is a binary32 number. -/
theorem fl32_half_tx : fl32 (16773939 / 65536) = 16773939 / 65536 := by
  have h : fl32core 16773939 65536 = (16773939, -16) := by decide
  norm_num [fl32, h]

/-- The sum `511.9f / 2 + 1 / 2 = 16806707 / 65536` needs 25 significant bits; it
lies halfway between two binary32 numbers and rounds up to `16806708 / 65536`. -/
theorem fl32_half_tx_plus_half : fl32 (16806707 / 65536) = 4201677 / 16384 := by
  have h : fl32core 16806707 65536 = (8403354, -15) := by decide
  norm_num [fl32, h]

theorem fl32_neg_half : fl32 (-(1 / 2)) = -(1 / 2) := by
  have h : fl32core 1 2 = (8388608, -24) := by decide
  norm_num [fl32, h]

/-- The two ways `CreateFramebuffer` ends, in terms of the state it has built
when it queries completeness. -/
theorem CreateFramebuffer_eq (c : Collab) (self width height : Nat) (w : World) :
    CreateFramebuffer c self width height w =
      if IsComplete c (attached self width height w) then
        Except.ok ((attached self width height w).withGL (GLContext.BindDraw 0))
      else
        HandleIncompleteError (Status c (attached self width height w))
          (attached self width height w) := by
  unfold CreateFramebuffer attached
  cases h : IsComplete c (attached self width height w) <;>
    simp only [attached] at h <;> simp [h, HandleIncompleteError, bind, Except.bind, pure,
      Except.pure]

theorem attached_shadowMapSize (self width height : Nat) (w : World) :
    ((attached self width height w).renderers self).shadowMapSize = ⟨width, height⟩ := by
  simp [attached, World.withGL, World.withRenderer]

theorem attached_trace (self width height : Nat) (w : World) :
    (attached self width height w).gl.trace = w.gl.trace := by
  simp [attached, World.withGL, World.withRenderer, GLContext.BindDraw,
    GLContext.BindTexture2D, GLContext.DepthImage2D, GLContext.withBoundTexture2D,
    GLContext.AttachDepthTexture, GLContext.DrawBuffer]

theorem attached_drawFramebuffer (self width height : Nat) (w : World) :
    (attached self width height w).gl.drawFramebuffer = (w.renderers self).shadowFramebuffer := by
  simp [attached, World.withGL, World.withRenderer, GLContext.BindDraw,
    GLContext.BindTexture2D, GLContext.DepthImage2D, GLContext.withBoundTexture2D,
    GLContext.AttachDepthTexture, GLContext.DrawBuffer]

/-- A completed `CreateFramebuffer(width, height)` has recorded the size. -/
theorem CreateFramebuffer_ok_size (c : Collab) (self width height : Nat) (w w1 : World)
    (h : CreateFramebuffer c self width height w = Except.ok w1) :
    (w1.renderers self).shadowMapSize = ⟨width, height⟩ := by
  rw [CreateFramebuffer_eq] at h
  split at h
  · injection h with h
    rw [← h]
    exact attached_shadowMapSize self width height w
  · simp [HandleIncompleteError] at h

@[simp] theorem Mat4.mul_def (a b : Mat4) :
    a * b = ⟨a.mulVec b.c0, a.mulVec b.c1, a.mulVec b.c2, a.mulVec b.c3⟩ := rfl

/-- Applying a product of matrices is applying the factors in turn. -/
theorem Mat4.mulVec_mul (a b : Mat4) (v : Vec4) : (a * b).mulVec v = a.mulVec (b.mulVec v) := by
  simp only [Mat4.mul_def, Mat4.mulVec, Vec4.add, Vec4.scale, Vec4.mk.injEq]
  refine ⟨?_, ?_, ?_, ?_⟩ <;> ring

/-- The bias matrix halves and shifts by one half. -/
theorem biasMatrix_mulVec (v : Vec4) :
    biasMatrix.mulVec v =
      ⟨v.x / 2 + v.w / 2, v.y / 2 + v.w / 2, v.z / 2 + v.w / 2, v.w⟩ := by
  simp only [biasMatrix, Mat4.ofScalars, Mat4.mulVec, Vec4.add, Vec4.scale, Vec4.mk.injEq]
  refine ⟨?_, ?_, ?_, ?_⟩ <;> ring

/-- What every reachable state of the list-build pass satisfies. -/
structure VoxelInv (fragments : List VoxelFragment) (s : VoxelList) : Prop where
  below : ∀ i k, (s.progress i).slot = some k → k < s.atomicCounter ∧ i < fragments.length
  claimedAll : ∀ k, k < s.atomicCounter → ∃ i, (s.progress i).slot = some k
  distinct : ∀ i j k, (s.progress i).slot = some k → (s.progress j).slot = some k → i = j
  once : (s.writes.map Prod.fst).Nodup
  stored : ∀ k, k ∈ s.writes.map Prod.fst ↔ ∃ i, s.progress i = Invocation.written k
  payload : ∀ k f, (k, f) ∈ s.writes →
    ∃ i, s.progress i = Invocation.written k ∧ fragments[i]? = some f

theorem VoxelInv_start (fragments : List VoxelFragment) (s : VoxelList) :
    VoxelInv fragments
      { BuildAtomicBuffer s with writes := [], progress := fun _ => Invocation.pending } where
  below := by intro i k h; simp [Invocation.slot] at h
  claimedAll := by intro k h; simp [BuildAtomicBuffer] at h
  distinct := by intro i j k h; simp [Invocation.slot] at h
  once := by simp
  stored := by intro k; simp
  payload := by intro k f h; simp at h

theorem VoxelInv_invoke (fragments : List VoxelFragment) (s : VoxelList) (i : Nat)
    (inv : VoxelInv fragments s) : VoxelInv fragments (invoke fragments s i) := by
  unfold invoke
  split
  · -- the invocation claims a slot
    rename_i f hf hp
    have hi : i < fragments.length := by
      rcases List.getElem?_eq_some_iff.mp hf with ⟨h, _⟩; exact h
    have hslot : ∀ j, j ≠ i →
        (Function.update s.progress i (Invocation.claimed s.atomicCounter) j) = s.progress j :=
      fun j hj => Function.update_noteq hj _ _
    constructor
    · intro j k h
      by_cases hj : j = i
      · subst hj
        simp [Invocation.slot] at h
        subst h
        exact ⟨Nat.lt_succ_self _, hi⟩
      · simp only [hslot j hj] at h
        exact ⟨Nat.lt_succ_of_lt (inv.below j k h).1, (inv.below j k h).2⟩
    · intro k hk
      by_cases hk' : k = s.atomicCounter
      · exact ⟨i, by simp [Invocation.slot, hk']⟩
      · obtain ⟨j, hj⟩ := inv.claimedAll k (by
          have : k < s.atomicCounter + 1 := hk
          omega)
        have hji : j ≠ i := by
          intro h; subst h; rw [hp] at hj; simp [Invocation.slot] at hj
        exact ⟨j, by simp only [hslot j hji]; exact hj⟩
    · intro j1 j2 k h1 h2
      by_cases e1 : j1 = i <;> by_cases e2 : j2 = i
      · rw [e1, e2]
      · subst e1
        simp [Invocation.slot] at h1
        simp only [hslot j2 e2] at h2
        have := (inv.below j2 k h2).1
        omega
      · subst e2
        simp [Invocation.slot] at h2
        simp only [hslot j1 e1] at h1
        have := (inv.below j1 k h1).1
        omega
      · simp only [hslot j1 e1] at h1
        simp only [hslot j2 e2] at h2
        exact inv.distinct j1 j2 k h1 h2
    · exact inv.once
    · intro k
      rw [inv.stored k]
      constructor
      · rintro ⟨j, hj⟩
        have hji : j ≠ i := by intro h; subst h; rw [hp] at hj; cases hj
        exact ⟨j, by simp only [hslot j hji]; exact hj⟩
      · rintro ⟨j, hj⟩
        have hji : j ≠ i := by intro h; subst h; simp at hj
        exact ⟨j, by simpa only [hslot j hji] using hj⟩
    · intro k g hg
      obtain ⟨j, hj, hgj⟩ := inv.payload k g hg
      have hji : j ≠ i := by intro h; subst h; rw [hp] at hj; cases hj
      exact ⟨j, by simp only [hslot j hji]; exact hj, hgj⟩
  · -- the invocation stores into its slot
    rename_i f k0 hf hp
    have hslot : ∀ j,
        (Function.update s.progress i (Invocation.written k0) j).slot = (s.progress j).slot := by
      intro j
      by_cases hj : j = i
      · subst hj; simp [hp, Invocation.slot]
      · rw [Function.update_noteq hj]
    have hother : ∀ j, j ≠ i →
        Function.update s.progress i (Invocation.written k0) j = s.progress j :=
      fun j hj => Function.update_noteq hj _ _
    have hfresh : k0 ∉ s.writes.map Prod.fst := by
      intro hmem
      obtain ⟨j, hj⟩ := (inv.stored k0).mp hmem
      have hji : j = i := inv.distinct j i k0 (by simp [hj, Invocation.slot])
        (by simp [hp, Invocation.slot])
      subst hji
      rw [hp] at hj
      cases hj
    constructor
    · intro j k h
      rw [hslot] at h
      exact inv.below j k h
    · intro k hk
      obtain ⟨j, hj⟩ := inv.claimedAll k hk
      exact ⟨j, by rw [hslot]; exact hj⟩
    · intro j1 j2 k h1 h2
      rw [hslot] at h1 h2
      exact inv.distinct j1 j2 k h1 h2
    · simp only [List.map_append, List.map_cons, List.map_nil]
      rw [List.nodup_append]
      refine ⟨inv.once, by simp, ?_⟩
      intro a ha hb
      simp at hb
      subst hb
      exact hfresh ha
    · intro k
      simp only [List.map_append, List.map_cons, List.map_nil, List.mem_append,
        List.mem_singleton]
      constructor
      · rintro (h | h)
        · obtain ⟨j, hj⟩ := (inv.stored k).mp h
          have hji : j ≠ i := by intro e; subst e; rw [hp] at hj; cases hj
          exact ⟨j, by rw [hother j hji]; exact hj⟩
        · subst h
          exact ⟨i, by simp⟩
      · rintro ⟨j, hj⟩
        by_cases hji : j = i
        · subst hji
          simp at hj
          exact Or.inr hj.symm
        · rw [hother j hji] at hj
          exact Or.inl ((inv.stored k).mpr ⟨j, hj⟩)
    · intro k g hg
      simp only [List.mem_append, List.mem_singleton, Prod.mk.injEq] at hg
      rcases hg with hg | ⟨hk, hg⟩
      · obtain ⟨j, hj, hgj⟩ := inv.payload k g hg
        have hji : j ≠ i := by intro e; subst e; rw [hp] at hj; cases hj
        exact ⟨j, by show Function.update s.progress i (Invocation.written k0) j = _
                     rw [hother j hji]; exact hj, hgj⟩
      · subst hk hg
        exact ⟨i, by simp, hf⟩
  · exact inv

theorem VoxelInv_run (fragments : List VoxelFragment) (schedule : List Nat) :
    ∀ s, VoxelInv fragments s → VoxelInv fragments (schedule.foldl (invoke fragments) s) := by
  induction schedule with
  | nil => intro s h; exact h
  | cons i rest ih =>
    intro s h
    exact ih _ (VoxelInv_invoke fragments s i h)

theorem invoke_progress_other (fragments : List VoxelFragment) (s : VoxelList) (i j : Nat)
    (h : j ≠ i) : (invoke fragments s i).progress j = s.progress j := by
  unfold invoke
  split
  · exact Function.update_noteq h _ _
  · exact Function.update_noteq h _ _
  · rfl

theorem invoke_stage_self (fragments : List VoxelFragment) (s : VoxelList) (i : Nat)
    (hi : i < fragments.length) :
    ((invoke fragments s i).progress i).stage = min 2 ((s.progress i).stage + 1) := by
  have hf : fragments[i]? = some fragments[i] := List.getElem?_eq_getElem hi
  unfold invoke
  rw [hf]
  cases hp : s.progress i <;> simp [Invocation.stage, hp]

/-- Each entry of the schedule advances its invocation by one step, up to the
two steps an invocation has. -/
theorem run_stage (fragments : List VoxelFragment) (i : Nat) (hi : i < fragments.length)
    (schedule : List Nat) :
    ∀ s : VoxelList, ((schedule.foldl (invoke fragments) s).progress i).stage =
      min 2 ((s.progress i).stage + schedule.count i) := by
  have hle : ∀ p : Invocation, p.stage ≤ 2 := by intro p; cases p <;> simp [Invocation.stage]
  induction schedule with
  | nil =>
    intro s
    have := hle (s.progress i)
    simp
    omega
  | cons j rest ih =>
    intro s
    rw [List.foldl_cons, ih]
    by_cases hj : j = i
    · subst hj
      rw [invoke_stage_self fragments s j hi]
      simp only [List.count_cons_self]
      omega
    · rw [invoke_progress_other fragments s j i (fun h => hj h.symm)]
      rw [List.count_cons_of_ne (fun h => hj h.symm)]

/-! ## `Render`: the idle path -/

/-- Claim C2: when the shadow caster is null, or no camera is active, or no scene
is active, or the active scene is not loaded, `Render()` returns the state it
was given: the trace gains no clear and no draw, and the draw-framebuffer
binding, the active camera, the current program, the light camera and every
other field are the same before and after. -/
theorem Render_idle_noop (c : Collab) (self : Nat) (w : World)
    (h : (w.renderers self).shadowCaster = none ∨ w.activeCamera = none ∨
      w.activeScene = none ∨ ∃ scene, w.activeScene = some scene ∧ scene.IsLoaded = false) :
    Render c self w = w := by
  unfold Render
  rcases h with h | h | h | ⟨scene, h, hl⟩
  · rw [h]
    cases w.activeCamera <;> cases w.activeScene <;> rfl
  · rw [h]
  · rw [h]
    cases w.activeCamera <;> rfl
  · rw [h]
    cases w.activeCamera <;> cases (w.renderers self).shadowCaster <;> simp [hl]

/-- The idle path at a concrete state: every caster is null. -/
theorem Render_idle_noop_witness : Render demoCollab 0 idleWorld = idleWorld :=
  Render_idle_noop demoCollab 0 idleWorld (Or.inl rfl)

/-! ## `Render`: the active path -/

/-- What one successful `Render()` hands to the next call: the camera that was
active, the scene, every renderer's caster, and the default framebuffer as
draw target. -/
theorem Render_ready_step (c : Collab) (self : Nat) (w : World) (camera : CameraRef)
    (scene : Scene) (caster : Nat) (hcam : w.activeCamera = some camera)
    (hscene : w.activeScene = some scene) (hloaded : scene.IsLoaded = true)
    (hcaster : (w.renderers self).shadowCaster = some caster) :
    (Render c self w).activeCamera = some camera ∧
    (Render c self w).activeScene = some scene ∧
    (∀ r, ((Render c self w).renderers r).shadowCaster = (w.renderers r).shadowCaster) ∧
    (Render c self w).gl.drawFramebuffer = 0 := by
  rw [Render_frame c self w camera scene caster hcam hscene hloaded hcaster]
  refine ⟨rfl, hscene, ?_, rfl⟩
  intro r
  by_cases hr : r = self
  · subst hr
    simp
  · simp [Function.update_noteq hr]

theorem RenderAll_ready (c : Collab) (camera : CameraRef) (scene : Scene)
    (hloaded : scene.IsLoaded = true) (calls : List Nat) :
    ∀ w : World, w.activeCamera = some camera → w.activeScene = some scene →
      (∀ self ∈ calls, (w.renderers self).shadowCaster ≠ none) →
      (RenderAll c calls w).activeCamera = some camera ∧
      (calls ≠ [] → (RenderAll c calls w).gl.drawFramebuffer = 0) := by
  induction calls with
  | nil =>
    intro w hcam _ _
    exact ⟨hcam, fun h => absurd rfl h⟩
  | cons self rest ih =>
    intro w hcam hscene hcasters
    obtain ⟨caster, hcaster⟩ := Option.ne_none_iff_exists'.mp (hcasters self (by simp))
    obtain ⟨h1, h2, h3, h4⟩ :=
      Render_ready_step c self w camera scene caster hcam hscene hloaded hcaster
    have hrest := ih (Render c self w) h1 h2 (by
      intro r hr
      rw [h3 r]
      exact hcasters r (by simp [hr]))
    have hunfold : RenderAll c (self :: rest) w = RenderAll c rest (Render c self w) := rfl
    rw [hunfold]
    refine ⟨hrest.1, fun _ => ?_⟩
    cases rest with
    | nil => exact h4
    | cons r rs => exact hrest.2 (by simp)

/-- Claim C3: from a state with an active camera and a loaded active scene, after
any non-empty finite sequence of `Render()` calls on renderers that have a
caster (one call, repeated calls, calls on several renderer instances), the
default framebuffer `0` is the bound draw target and the active camera is the
camera that was active when the first call was entered. -/
theorem RenderAll_restores_framebuffer_and_camera (c : Collab) (w : World)
    (camera : CameraRef) (scene : Scene) (calls : List Nat)
    (hcam : w.activeCamera = some camera) (hscene : w.activeScene = some scene)
    (hloaded : scene.IsLoaded = true)
    (hcasters : ∀ self ∈ calls, (w.renderers self).shadowCaster ≠ none)
    (hcalls : calls ≠ []) :
    (RenderAll c calls w).gl.drawFramebuffer = 0 ∧
    (RenderAll c calls w).activeCamera = some camera := by
  obtain ⟨h1, h2⟩ := RenderAll_ready c camera scene hloaded calls w hcam hscene hcasters
  exact ⟨h2 hcalls, h1⟩

/-- Three calls on two renderer instances, entered with a framebuffer other than
the default one bound. -/
theorem RenderAll_restores_framebuffer_and_camera_witness :
    (RenderAll demoCollab [0, 1, 0]
        (demoWorld.withGL (GLContext.BindDraw 5))).gl.drawFramebuffer = 0 ∧
    (RenderAll demoCollab [0, 1, 0]
        (demoWorld.withGL (GLContext.BindDraw 5))).activeCamera = some (CameraRef.object 0) :=
  RenderAll_restores_framebuffer_and_camera demoCollab
    (demoWorld.withGL (GLContext.BindDraw 5)) (CameraRef.object 0) demoScene [0, 1, 0]
    rfl rfl rfl (by intro self _; simp [World.withGL, demoWorld, demoRenderer]) (by simp)

/-- Claim C4, as the code has it: after a successful `Render()` the current
program is the depth program that `DepthShader()` returns, whichever program
was current when `Render()` was entered; the program is not restored. -/
theorem Render_leaves_depth_program_current (c : Collab) (self : Nat) (w : World)
    (camera : CameraRef) (scene : Scene) (caster : Nat)
    (hcam : w.activeCamera = some camera) (hscene : w.activeScene = some scene)
    (hloaded : scene.IsLoaded = true)
    (hcaster : (w.renderers self).shadowCaster = some caster) :
    (Render c self w).currentProgram = some DepthShader := by
  rw [Render_frame c self w camera scene caster hcam hscene hloaded hcaster]

/-- The depth program is current after `Render()` at the demo world. -/
theorem Render_leaves_depth_program_current_witness :
    (Render demoCollab 0 demoWorld).currentProgram = some DepthShader :=
  Render_leaves_depth_program_current demoCollab 0 demoWorld (CameraRef.object 0) demoScene 0
    rfl rfl rfl rfl

/-- Claim C4 fails as stated: at the demo world all preconditions of `Render()`
hold and program `other 1` is current on entry, yet after the call the
current program is a different one. -/
theorem Render_changes_current_program :
    demoWorld.activeCamera = some (CameraRef.object 0) ∧
    demoWorld.activeScene = some demoScene ∧ demoScene.IsLoaded = true ∧
    (demoWorld.renderers 0).shadowCaster = some 0 ∧
    demoWorld.currentProgram = some (ProgramRef.other 1) ∧
    (Render demoCollab 0 demoWorld).currentProgram ≠ demoWorld.currentProgram := by
  refine ⟨rfl, rfl, rfl, rfl, rfl, ?_⟩
  rw [Render_frame demoCollab 0 demoWorld (CameraRef.object 0) demoScene 0 rfl rfl rfl rfl]
  simp [demoWorld, DepthShader]

/-! ## `Render`: the fitted light frustum -/

/-- Claim C1, as the code has it: a successful `Render()` overwrites the light
camera, whatever it held, with: position the float value of `C - d * R` for
the negated caster direction `d = -D`, which is also stored as the forward
vector; near clip plane `-R`; far clip plane the float product `2.0f * R`;
orthographic rectangle `(-R, R, -R, R)`; orthographic projection mode. Here
`C` is the current scene's bounding-volume centre, `R` the distance from `C`
to the volume's `MaxPoint()`, `D` the caster's `Direction()`, and the float
operations are glm's. Whenever the subtraction and the product of line 57
round nothing the position is `C + D * R`, and whenever the product of line 55
rounds nothing the far plane is `2 * R`. -/
theorem Render_fits_light_camera (c : Collab) (self : Nat) (w : World)
    (camera : CameraRef) (scene : Scene) (caster : Nat)
    (hcam : w.activeCamera = some camera) (hscene : w.activeScene = some scene)
    (hloaded : scene.IsLoaded = true)
    (hcaster : (w.renderers self).shadowCaster = some caster) :
    ((Render c self w).renderers self).lightView =
      { transform :=
          { position := c.sub scene.rootNode.boundaries.Center
              (c.scale (-(w.lights caster).Direction)
                (c.distance scene.rootNode.boundaries.Center
                  scene.rootNode.boundaries.MaxPoint))
            forward := -(w.lights caster).Direction }
        clipPlaneNear :=
          -c.distance scene.rootNode.boundaries.Center scene.rootNode.boundaries.MaxPoint
        clipPlaneFar := c.mul 2
          (c.distance scene.rootNode.boundaries.Center scene.rootNode.boundaries.MaxPoint)
        orthoRect :=
          ⟨-c.distance scene.rootNode.boundaries.Center scene.rootNode.boundaries.MaxPoint,
            c.distance scene.rootNode.boundaries.Center scene.rootNode.boundaries.MaxPoint,
            -c.distance scene.rootNode.boundaries.Center scene.rootNode.boundaries.MaxPoint,
            c.distance scene.rootNode.boundaries.Center scene.rootNode.boundaries.MaxPoint⟩
        projection := ProjectionMode.Orthographic } ∧
    (c.sub scene.rootNode.boundaries.Center
        (c.scale (-(w.lights caster).Direction)
          (c.distance scene.rootNode.boundaries.Center scene.rootNode.boundaries.MaxPoint)) =
      scene.rootNode.boundaries.Center - (-(w.lights caster).Direction) *
        c.distance scene.rootNode.boundaries.Center scene.rootNode.boundaries.MaxPoint →
      ((Render c self w).renderers self).lightView.transform.position =
        scene.rootNode.boundaries.Center + (w.lights caster).Direction *
          c.distance scene.rootNode.boundaries.Center scene.rootNode.boundaries.MaxPoint) ∧
    (c.mul 2
        (c.distance scene.rootNode.boundaries.Center scene.rootNode.boundaries.MaxPoint) =
      2 * c.distance scene.rootNode.boundaries.Center scene.rootNode.boundaries.MaxPoint →
      ((Render c self w).renderers self).lightView.clipPlaneFar =
        2 * c.distance scene.rootNode.boundaries.Center scene.rootNode.boundaries.MaxPoint) := by
  have hfit : ((Render c self w).renderers self).lightView =
      fitted c scene (w.lights caster) := by
    rw [Render_frame c self w camera scene caster hcam hscene hloaded hcaster]
    simp only [Function.update_same]
  rw [hfit]
  refine ⟨rfl, ?_, ?_⟩
  · intro h
    show c.sub _ _ = _
    rw [h]
    simp
  · intro h
    exact h

/-- The fitted light camera at the demo world, in binary32 arithmetic: centre at
the origin, radius `3`, light direction `(0, -1, 0)`. -/
theorem Render_fits_light_camera_witness :
    ((Render demoCollab 0 demoWorld).renderers 0).lightView =
      { transform := { position := ⟨0, -3, 0⟩, forward := ⟨0, 1, 0⟩ }
        clipPlaneNear := -3
        clipPlaneFar := 6
        orthoRect := ⟨-3, 3, -3, 3⟩
        projection := ProjectionMode.Orthographic } := by
  have h := (Render_fits_light_camera demoCollab 0 demoWorld (CameraRef.object 0) demoScene 0
    rfl rfl rfl rfl).1
  rw [h]
  simp [demoWorld, demoScene, demoCollab, euclid_demo, sub32, scale32, mul32, fl32_zero,
    fl32_three, fl32_neg_three]
  norm_num [fl32_six]

/-- Claim C1 fails as stated: at the demo world, run in binary32 arithmetic, the
preconditions of `Render()` hold, the bounding sphere has centre
`C = (0, 0, 0)` and radius `R = 3 > 0`, the caster's direction
`D = (0, -1, 0)` is a unit vector, and after `Render()` the light camera's
position is `(0, -3, 0)`: it is not `C - D * R = (0, 3, 0)`, neither in exact
arithmetic nor as glm evaluates that expression. -/
theorem Render_position_not_center_minus_direction :
    demoWorld.activeCamera = some (CameraRef.object 0) ∧
    demoWorld.activeScene = some demoScene ∧ demoScene.IsLoaded = true ∧
    (demoWorld.renderers 0).shadowCaster = some 0 ∧
    demoScene.rootNode.boundaries.Center = ⟨0, 0, 0⟩ ∧
    demoCollab.distance demoScene.rootNode.boundaries.Center
      demoScene.rootNode.boundaries.MaxPoint = 3 ∧
    (demoWorld.lights 0).Direction = ⟨0, -1, 0⟩ ∧
    Vec3.dot (demoWorld.lights 0).Direction (demoWorld.lights 0).Direction = 1 ∧
    ((Render demoCollab 0 demoWorld).renderers 0).lightView.transform.position = ⟨0, -3, 0⟩ ∧
    ((Render demoCollab 0 demoWorld).renderers 0).lightView.transform.position ≠
      demoScene.rootNode.boundaries.Center - (demoWorld.lights 0).Direction *
        demoCollab.distance demoScene.rootNode.boundaries.Center
          demoScene.rootNode.boundaries.MaxPoint ∧
    ((Render demoCollab 0 demoWorld).renderers 0).lightView.transform.position ≠
      demoCollab.sub demoScene.rootNode.boundaries.Center
        (demoCollab.scale (demoWorld.lights 0).Direction
          (demoCollab.distance demoScene.rootNode.boundaries.Center
            demoScene.rootNode.boundaries.MaxPoint)) := by
  have hR : demoCollab.distance demoScene.rootNode.boundaries.Center
      demoScene.rootNode.boundaries.MaxPoint = 3 := euclid_demo
  have hpos : ((Render demoCollab 0 demoWorld).renderers 0).lightView.transform.position =
      ⟨0, -3, 0⟩ := by
    rw [Render_frame demoCollab 0 demoWorld (CameraRef.object 0) demoScene 0 rfl rfl rfl rfl]
    simp only [Function.update_same, fitted, hR]
    simp [demoWorld, demoScene, demoCollab, sub32, scale32, fl32_zero, fl32_three,
      fl32_neg_three]
  refine ⟨rfl, rfl, rfl, rfl, rfl, hR, rfl, by norm_num [demoWorld, Vec3.dot], hpos, ?_, ?_⟩
  · rw [hpos, hR]
    simp [demoWorld, demoScene]
    norm_num
  · rw [hpos, hR]
    simp [demoWorld, demoScene, demoCollab, sub32, scale32, fl32_zero, fl32_three,
      fl32_neg_three]
    norm_num

/-- Claim C10: when the renderer's shadow-map size was last recorded by
`CreateFramebuffer(width, height)` (or by the constructor, which records
2048 x 2048), a successful `Render()` returns with the colour write mask
`(false, false, false, false)`, depth testing and face culling enabled, the
front face culled and the viewport equal to that size, whatever these settings
were on entry: only the draw-framebuffer binding and the active camera are
put back. -/
theorem Render_keeps_depth_pass_settings (c : Collab) (self : Nat) (w0 w1 : World)
    (members : ShadowMapRenderer) (width height : Nat)
    (hlast : CreateFramebuffer c self width height w0 = Except.ok w1 ∨
      (construct c self members w0 = Except.ok w1 ∧ width = 2048 ∧ height = 2048))
    (w : World)
    (hsize : (w.renderers self).shadowMapSize = (w1.renderers self).shadowMapSize)
    (camera : CameraRef) (scene : Scene) (caster : Nat)
    (hcam : w.activeCamera = some camera) (hscene : w.activeScene = some scene)
    (hloaded : scene.IsLoaded = true)
    (hcaster : (w.renderers self).shadowCaster = some caster) :
    (Render c self w).gl.colorMask = (false, false, false, false) ∧
    (Render c self w).gl.depthTest = true ∧
    (Render c self w).gl.cullFace = true ∧
    (Render c self w).gl.cullFaceMode = Face.Front ∧
    (Render c self w).gl.viewport = (width, height) ∧
    (Render c self w).gl.drawFramebuffer = 0 ∧
    (Render c self w).activeCamera = some camera := by
  have hw1 : (w1.renderers self).shadowMapSize = ⟨width, height⟩ := by
    rcases hlast with h | ⟨h, hw, hh⟩
    · exact CreateFramebuffer_ok_size c self width height w0 w1 h
    · subst hw hh
      exact CreateFramebuffer_ok_size c self 2048 2048 _ w1 h
  rw [Render_frame c self w camera scene caster hcam hscene hloaded hcaster]
  refine ⟨rfl, rfl, rfl, rfl, ?_, rfl, rfl⟩
  show ((w.renderers self).shadowMapSize.x, (w.renderers self).shadowMapSize.y) = (width, height)
  rw [hsize, hw1]

/-- The demo renderer constructed in the demo world, given a caster, and rendered
from a context with colour writes on, no depth test, no culling and a
1280 x 720 viewport. -/
theorem Render_keeps_depth_pass_settings_witness :
    (Render demoCollab 0 demoWorld).gl.colorMask = (false, false, false, false) ∧
    (Render demoCollab 0 demoWorld).gl.depthTest = true ∧
    (Render demoCollab 0 demoWorld).gl.cullFace = true ∧
    (Render demoCollab 0 demoWorld).gl.cullFaceMode = Face.Front ∧
    (Render demoCollab 0 demoWorld).gl.viewport = (2048, 2048) ∧
    (Render demoCollab 0 demoWorld).gl.drawFramebuffer = 0 ∧
    (Render demoCollab 0 demoWorld).activeCamera = some (CameraRef.object 0) :=
  Render_keeps_depth_pass_settings demoCollab 0 demoWorld
    ((attached 0 2048 2048
      { demoWorld with
        renderers := Function.update demoWorld.renderers 0
          { demoRenderer with shadowCaster := none } }).withGL (GLContext.BindDraw 0))
    demoRenderer 2048 2048
    (Or.inr ⟨by
      rw [construct, CreateFramebuffer_eq]
      simp [IsComplete, demoCollab, attached, World.withGL, World.withRenderer,
        GLContext.BindDraw, GLContext.BindTexture2D, GLContext.DepthImage2D,
        GLContext.withBoundTexture2D, GLContext.AttachDepthTexture, GLContext.DrawBuffer,
        demoWorld, demoRenderer, demoGL], rfl, rfl⟩)
    demoWorld (by simp [attached, World.withGL, World.withRenderer, demoWorld, demoRenderer])
    (CameraRef.object 0) demoScene 0 rfl rfl rfl rfl

/-! ## `LightSpaceMatrix` -/

/-- Claim C5: a second `LightSpaceMatrix()` call right after a first returns the
same matrix, and the first call changes nothing but the `lightSpaceMatrix`
member of its renderer: the process-wide selections, the OpenGL context, the
other renderers, the other members, and with them the light camera's
projection and view matrices, are as before. -/
theorem LightSpaceMatrix_idempotent (c : Collab) (self : Nat) (w : World) :
    (LightSpaceMatrix c self (LightSpaceMatrix c self w).2).1 = (LightSpaceMatrix c self w).1 ∧
    (LightSpaceMatrix c self w).2.activeCamera = w.activeCamera ∧
    (LightSpaceMatrix c self w).2.cameras = w.cameras ∧
    (LightSpaceMatrix c self w).2.lights = w.lights ∧
    (LightSpaceMatrix c self w).2.activeScene = w.activeScene ∧
    (LightSpaceMatrix c self w).2.currentProgram = w.currentProgram ∧
    (LightSpaceMatrix c self w).2.modelViewProjection = w.modelViewProjection ∧
    (LightSpaceMatrix c self w).2.activeRenderer = w.activeRenderer ∧
    (LightSpaceMatrix c self w).2.gl = w.gl ∧
    (∀ r, r ≠ self → (LightSpaceMatrix c self w).2.renderers r = w.renderers r) ∧
    (LightSpaceMatrix c self w).2.renderers self =
      { w.renderers self with lightSpaceMatrix := (LightSpaceMatrix c self w).1 } ∧
    c.ProjectionMatrix ((LightSpaceMatrix c self w).2.renderers self).lightView =
      c.ProjectionMatrix (w.renderers self).lightView ∧
    c.ViewMatrix ((LightSpaceMatrix c self w).2.renderers self).lightView =
      c.ViewMatrix (w.renderers self).lightView := by
  refine ⟨?_, rfl, rfl, rfl, rfl, rfl, rfl, rfl, rfl, ?_, ?_, ?_, ?_⟩
  · simp [LightSpaceMatrix, World.withRenderer]
  · intro r hr
    simp [LightSpaceMatrix, World.withRenderer, Function.update_noteq hr]
  · simp [LightSpaceMatrix, World.withRenderer]
  · simp [LightSpaceMatrix, World.withRenderer]
  · simp [LightSpaceMatrix, World.withRenderer]

/-- Claim C6, as the code has it: `LightSpaceMatrix()` returns the product
`(B * P) * V` as glm's float matrix product evaluates it, for the light
camera's projection `P` and view `V`. The bias matrix `B` sends
`(x, y, z, 1)` to `(x/2 + 1/2, y/2 + 1/2, z/2 + 1/2, 1)`. For a point `p`
whose clip-space image `P * V * p` has `w = 1` and `x`, `y`, `z` in `[-1, 1]`,
the exact product `B * P * V` maps `p` to a point with `x`, `y`, `z` in
`[0, 1]` and `w = 1`, and so does the returned matrix whenever the float
products have rounded nothing, that is, whenever it equals the exact
product. -/
theorem LightSpaceMatrix_maps_clip_to_unit (c : Collab) (self : Nat) (w : World) :
    (LightSpaceMatrix c self w).1 =
      c.matMul (c.matMul biasMatrix (c.ProjectionMatrix (w.renderers self).lightView))
        (c.ViewMatrix (w.renderers self).lightView) ∧
    (∀ x y z : ℚ,
      biasMatrix.mulVec ⟨x, y, z, 1⟩ = ⟨x / 2 + 1 / 2, y / 2 + 1 / 2, z / 2 + 1 / 2, 1⟩) ∧
    ∀ p : Vec4,
      ((c.ProjectionMatrix (w.renderers self).lightView *
        c.ViewMatrix (w.renderers self).lightView).mulVec p).w = 1 →
      -1 ≤ ((c.ProjectionMatrix (w.renderers self).lightView *
        c.ViewMatrix (w.renderers self).lightView).mulVec p).x →
      ((c.ProjectionMatrix (w.renderers self).lightView *
        c.ViewMatrix (w.renderers self).lightView).mulVec p).x ≤ 1 →
      -1 ≤ ((c.ProjectionMatrix (w.renderers self).lightView *
        c.ViewMatrix (w.renderers self).lightView).mulVec p).y →
      ((c.ProjectionMatrix (w.renderers self).lightView *
        c.ViewMatrix (w.renderers self).lightView).mulVec p).y ≤ 1 →
      -1 ≤ ((c.ProjectionMatrix (w.renderers self).lightView *
        c.ViewMatrix (w.renderers self).lightView).mulVec p).z →
      ((c.ProjectionMatrix (w.renderers self).lightView *
        c.ViewMatrix (w.renderers self).lightView).mulVec p).z ≤ 1 →
      (0 ≤ ((biasMatrix * c.ProjectionMatrix (w.renderers self).lightView *
          c.ViewMatrix (w.renderers self).lightView).mulVec p).x ∧
        ((biasMatrix * c.ProjectionMatrix (w.renderers self).lightView *
          c.ViewMatrix (w.renderers self).lightView).mulVec p).x ≤ 1 ∧
        0 ≤ ((biasMatrix * c.ProjectionMatrix (w.renderers self).lightView *
          c.ViewMatrix (w.renderers self).lightView).mulVec p).y ∧
        ((biasMatrix * c.ProjectionMatrix (w.renderers self).lightView *
          c.ViewMatrix (w.renderers self).lightView).mulVec p).y ≤ 1 ∧
        0 ≤ ((biasMatrix * c.ProjectionMatrix (w.renderers self).lightView *
          c.ViewMatrix (w.renderers self).lightView).mulVec p).z ∧
        ((biasMatrix * c.ProjectionMatrix (w.renderers self).lightView *
          c.ViewMatrix (w.renderers self).lightView).mulVec p).z ≤ 1 ∧
        ((biasMatrix * c.ProjectionMatrix (w.renderers self).lightView *
          c.ViewMatrix (w.renderers self).lightView).mulVec p).w = 1) ∧
      ((LightSpaceMatrix c self w).1 =
          biasMatrix * c.ProjectionMatrix (w.renderers self).lightView *
            c.ViewMatrix (w.renderers self).lightView →
        0 ≤ ((LightSpaceMatrix c self w).1.mulVec p).x ∧
        ((LightSpaceMatrix c self w).1.mulVec p).x ≤ 1 ∧
        0 ≤ ((LightSpaceMatrix c self w).1.mulVec p).y ∧
        ((LightSpaceMatrix c self w).1.mulVec p).y ≤ 1 ∧
        0 ≤ ((LightSpaceMatrix c self w).1.mulVec p).z ∧
        ((LightSpaceMatrix c self w).1.mulVec p).z ≤ 1 ∧
        ((LightSpaceMatrix c self w).1.mulVec p).w = 1) := by
  refine ⟨rfl, ?_, ?_⟩
  · intro x y z
    rw [biasMatrix_mulVec]
  · intro p hw hx1 hx2 hy1 hy2 hz1 hz2
    have hm : (biasMatrix * c.ProjectionMatrix (w.renderers self).lightView *
        c.ViewMatrix (w.renderers self).lightView).mulVec p =
        biasMatrix.mulVec ((c.ProjectionMatrix (w.renderers self).lightView *
          c.ViewMatrix (w.renderers self).lightView).mulVec p) := by
      rw [Mat4.mulVec_mul, Mat4.mulVec_mul, Mat4.mulVec_mul]
    have hexact : 0 ≤ ((biasMatrix * c.ProjectionMatrix (w.renderers self).lightView *
          c.ViewMatrix (w.renderers self).lightView).mulVec p).x ∧
        ((biasMatrix * c.ProjectionMatrix (w.renderers self).lightView *
          c.ViewMatrix (w.renderers self).lightView).mulVec p).x ≤ 1 ∧
        0 ≤ ((biasMatrix * c.ProjectionMatrix (w.renderers self).lightView *
          c.ViewMatrix (w.renderers self).lightView).mulVec p).y ∧
        ((biasMatrix * c.ProjectionMatrix (w.renderers self).lightView *
          c.ViewMatrix (w.renderers self).lightView).mulVec p).y ≤ 1 ∧
        0 ≤ ((biasMatrix * c.ProjectionMatrix (w.renderers self).lightView *
          c.ViewMatrix (w.renderers self).lightView).mulVec p).z ∧
        ((biasMatrix * c.ProjectionMatrix (w.renderers self).lightView *
          c.ViewMatrix (w.renderers self).lightView).mulVec p).z ≤ 1 ∧
        ((biasMatrix * c.ProjectionMatrix (w.renderers self).lightView *
          c.ViewMatrix (w.renderers self).lightView).mulVec p).w = 1 := by
      rw [hm, biasMatrix_mulVec, hw]
      refine ⟨?_, ?_, ?_, ?_, ?_, ?_, rfl⟩ <;> dsimp only <;> linarith
    refine ⟨hexact, ?_⟩
    intro heq
    rw [heq]
    exact hexact

/-- A light camera whose matrices have entries `0`, `1` and `-1` only: in
binary32 arithmetic both products are exact, and the point
`(1/2, -1/2, 0, 1)`, whose clip coordinates are `(1/2, -1/2, 0, 1)`, is mapped
into the unit cube by the returned matrix. -/
theorem LightSpaceMatrix_maps_clip_to_unit_witness :
    0 ≤ ((LightSpaceMatrix demoCollab 0 cubeWorld).1.mulVec ⟨1 / 2, -1 / 2, 0, 1⟩).x ∧
    ((LightSpaceMatrix demoCollab 0 cubeWorld).1.mulVec ⟨1 / 2, -1 / 2, 0, 1⟩).x ≤ 1 ∧
    0 ≤ ((LightSpaceMatrix demoCollab 0 cubeWorld).1.mulVec ⟨1 / 2, -1 / 2, 0, 1⟩).y ∧
    ((LightSpaceMatrix demoCollab 0 cubeWorld).1.mulVec ⟨1 / 2, -1 / 2, 0, 1⟩).y ≤ 1 ∧
    0 ≤ ((LightSpaceMatrix demoCollab 0 cubeWorld).1.mulVec ⟨1 / 2, -1 / 2, 0, 1⟩).z ∧
    ((LightSpaceMatrix demoCollab 0 cubeWorld).1.mulVec ⟨1 / 2, -1 / 2, 0, 1⟩).z ≤ 1 ∧
    ((LightSpaceMatrix demoCollab 0 cubeWorld).1.mulVec ⟨1 / 2, -1 / 2, 0, 1⟩).w = 1 := by
  have hP : demoCollab.ProjectionMatrix (cubeWorld.renderers 0).lightView =
      Mat4.ofScalars 1 0 0 0 0 1 0 0 0 0 (-1) 0 0 0 0 1 := by
    simp [demoCollab, cubeWorld, cubeCamera, ortho32]
    norm_num [fl32_zero, fl32_one, fl32_two]
  have hV : demoCollab.ViewMatrix (cubeWorld.renderers 0).lightView = Mat4.one := by
    simp [demoCollab, cubeWorld, cubeCamera, translateBack, Mat4.one]
  have hexact : (LightSpaceMatrix demoCollab 0 cubeWorld).1 =
      biasMatrix * demoCollab.ProjectionMatrix (cubeWorld.renderers 0).lightView *
        demoCollab.ViewMatrix (cubeWorld.renderers 0).lightView := by
    show demoCollab.matMul (demoCollab.matMul biasMatrix
      (demoCollab.ProjectionMatrix (cubeWorld.renderers 0).lightView))
      (demoCollab.ViewMatrix (cubeWorld.renderers 0).lightView) = _
    rw [hP, hV]
    simp [demoCollab, biasMatrix, Mat4.one, Mat4.ofScalars, matMul32, mulVec32, vadd32,
      vscale32, Mat4.mulVec, Vec4.add, Vec4.scale]
    norm_num [fl32_zero, fl32_one, fl32_half, fl32_neg_half]
  refine ((LightSpaceMatrix_maps_clip_to_unit demoCollab 0 cubeWorld).2.2
    ⟨1 / 2, -1 / 2, 0, 1⟩ ?_ ?_ ?_ ?_ ?_ ?_ ?_).2 hexact <;>
    rw [hP, hV] <;>
    norm_num [Mat4.one, Mat4.ofScalars, Mat4.mulVec, Vec4.add, Vec4.scale]

/-- Claim C6 fails as stated: take the light camera that `Render()` leaves for a
bounding sphere of radius `1` (projection `glm::ortho(-1, 1, -1, 1, -1, 2)`) at
position `(-511.9f, -1883.5, -1049)`, and run `LightSpaceMatrix()` in binary32
arithmetic. The point `p = (-510.9f, -1883.5, -1049.5, 1)` has clip
coordinates `P * V * p = (1, 0, 0, 1)`, inside `[-1, 1]^3` with `w = 1`, but the
returned matrix maps it to a point whose `x` is `65537 / 65536`, above `1`:
the sum `511.9f / 2 + 1 / 2` in the last column of `(B * P) * V` was rounded
up. -/
theorem LightSpaceMatrix_leaves_unit_cube :
    (demoCollab.ProjectionMatrix (unitWorld.renderers 0).lightView *
      demoCollab.ViewMatrix (unitWorld.renderers 0).lightView).mulVec
        ⟨-(16741171 / 32768), -(3767 / 2), -(2099 / 2), 1⟩ = ⟨1, 0, 0, 1⟩ ∧
    ((LightSpaceMatrix demoCollab 0 unitWorld).1.mulVec
      ⟨-(16741171 / 32768), -(3767 / 2), -(2099 / 2), 1⟩).x = 65537 / 65536 ∧
    ¬ ((LightSpaceMatrix demoCollab 0 unitWorld).1.mulVec
      ⟨-(16741171 / 32768), -(3767 / 2), -(2099 / 2), 1⟩).x ≤ 1 := by
  have hx : ((LightSpaceMatrix demoCollab 0 unitWorld).1.mulVec
      ⟨-(16741171 / 32768), -(3767 / 2), -(2099 / 2), 1⟩).x = 65537 / 65536 := by
    simp [LightSpaceMatrix, unitWorld, demoCollab, unitCamera, ortho32, translateBack,
      biasMatrix, Mat4.ofScalars, matMul32, mulVec32, vadd32, vscale32, Mat4.mulVec, Vec4.add,
      Vec4.scale, demoRenderer]
    norm_num [fl32_zero, fl32_one, fl32_two, fl32_three, fl32_two_thirds, fl32_third,
      fl32_half, fl32_half_tx, fl32_half_tx_plus_half]
  refine ⟨?_, hx, ?_⟩
  · simp [unitWorld, demoCollab, unitCamera, ortho32, translateBack, Mat4.ofScalars,
      Mat4.mulVec, Vec4.add, Vec4.scale, demoRenderer]
    norm_num [fl32_zero, fl32_one, fl32_two, fl32_three, fl32_two_thirds, fl32_third]
  · rw [hx]
    norm_num

/-! ## `CreateFramebuffer` -/

/-- Claim C8: `CreateFramebuffer(width, height)` ends in the raised
incomplete-framebuffer error exactly when the draw framebuffer is reported
incomplete once the depth texture is attached. In that case the error handler
has been called once, while the shadow framebuffer was the draw target, with
the status queried from the draw target, and the call does not return
normally. When the framebuffer is complete the handler is not called, and the
call returns with `shadowMapSize = (width, height)` and framebuffer `0` bound
as the draw target. -/
theorem CreateFramebuffer_fatal_iff_incomplete (c : Collab) (self width height : Nat)
    (w : World) :
    ((∃ e, CreateFramebuffer c self width height w = Except.error e) ↔
      IsComplete c (attached self width height w) = false) ∧
    (IsComplete c (attached self width height w) = false →
      ∃ e, CreateFramebuffer c self width height w = Except.error e ∧
        e.status = Status c (attached self width height w) ∧
        e.world.gl.trace = w.gl.trace ++
          [GLEvent.incompleteError (w.renderers self).shadowFramebuffer
            (Status c (attached self width height w))]) ∧
    (IsComplete c (attached self width height w) = true →
      ∃ w1, CreateFramebuffer c self width height w = Except.ok w1 ∧
        w1.gl.trace = w.gl.trace ∧
        (w1.renderers self).shadowMapSize = ⟨width, height⟩ ∧
        w1.gl.drawFramebuffer = 0) := by
  rw [CreateFramebuffer_eq]
  refine ⟨?_, ?_, ?_⟩
  · cases h : IsComplete c (attached self width height w) <;> simp [HandleIncompleteError]
  · intro h
    simp only [h, Bool.false_eq_true, if_false, HandleIncompleteError]
    refine ⟨_, rfl, rfl, ?_⟩
    simp [World.withGL, attached_trace, attached_drawFramebuffer]
  · intro h
    simp only [h, if_true]
    refine ⟨_, rfl, ?_, ?_, rfl⟩
    · simp [World.withGL, GLContext.BindDraw, attached_trace]
    · exact attached_shadowMapSize self width height w

/-- At the demo world, whose driver rejects an empty depth texture:
`CreateFramebuffer(0, 2048)` raises the error with status
`IncompleteAttachment` after one handler call, and
`CreateFramebuffer(2048, 2048)` returns with the default framebuffer bound. -/
theorem CreateFramebuffer_fatal_iff_incomplete_witness :
    (∃ e, CreateFramebuffer demoCollab 0 0 2048 demoWorld = Except.error e ∧
      e.status = FramebufferStatus.IncompleteAttachment ∧
      e.world.gl.trace =
        [GLEvent.incompleteError 1 FramebufferStatus.IncompleteAttachment]) ∧
    (∃ w1, CreateFramebuffer demoCollab 0 2048 2048 demoWorld = Except.ok w1 ∧
      w1.gl.trace = [] ∧
      (w1.renderers 0).shadowMapSize = ⟨2048, 2048⟩ ∧
      w1.gl.drawFramebuffer = 0) := by
  have hs : Status demoCollab (attached 0 0 2048 demoWorld) =
      FramebufferStatus.IncompleteAttachment := by
    simp [Status, demoCollab, attached, World.withGL, World.withRenderer,
      GLContext.BindDraw, GLContext.BindTexture2D, GLContext.DepthImage2D,
      GLContext.withBoundTexture2D, GLContext.AttachDepthTexture, GLContext.DrawBuffer,
      demoWorld, demoRenderer, demoGL]
  have hbad : IsComplete demoCollab (attached 0 0 2048 demoWorld) = false := by
    have : demoCollab.CheckFramebufferStatus (attached 0 0 2048 demoWorld).gl =
        FramebufferStatus.IncompleteAttachment := hs
    simp [IsComplete, this]
  have hgood : IsComplete demoCollab (attached 0 2048 2048 demoWorld) = true := by
    simp [IsComplete, demoCollab, attached, World.withGL, World.withRenderer,
      GLContext.BindDraw, GLContext.BindTexture2D, GLContext.DepthImage2D,
      GLContext.withBoundTexture2D, GLContext.AttachDepthTexture, GLContext.DrawBuffer,
      demoWorld, demoRenderer, demoGL]
  constructor
  · obtain ⟨e, h1, h2, h3⟩ :=
      (CreateFramebuffer_fatal_iff_incomplete demoCollab 0 0 2048 demoWorld).2.1 hbad
    exact ⟨e, h1, h2.trans hs, by rw [h3, hs]; rfl⟩
  · exact (CreateFramebuffer_fatal_iff_incomplete demoCollab 0 2048 2048 demoWorld).2.2 hgood

/-! ## The voxel fragment counter -/

/-- Claim C9: let the fragments of the three axis passes be rendered by
`VoxelizeScene()`, the counter reset by `BuildAtomicBuffer` first, under any
schedule that lets every fragment's invocation take both its steps. Then the
atomic counter equals the number of stores made into the linear buffers, both
equal the number `N` of fragments, no slot is stored into twice, every
fragment has stored its own attributes into its slot, and distinct fragments
hold distinct slots. -/
theorem VoxelizeScene_counter_equals_writes (passX passY passZ : List VoxelFragment)
    (schedule : List Nat) (s0 : VoxelList)
    (hrun : ∀ i, i < (passX ++ passY ++ passZ).length → 2 ≤ schedule.count i) :
    (VoxelizeScene passX passY passZ schedule s0).atomicCounter =
      (VoxelizeScene passX passY passZ schedule s0).writes.length ∧
    (VoxelizeScene passX passY passZ schedule s0).atomicCounter =
      (passX ++ passY ++ passZ).length ∧
    ((VoxelizeScene passX passY passZ schedule s0).writes.map Prod.fst).Nodup ∧
    (∀ i (hi : i < (passX ++ passY ++ passZ).length), ∃ k,
      (VoxelizeScene passX passY passZ schedule s0).progress i = Invocation.written k ∧
      (k, (passX ++ passY ++ passZ)[i]) ∈
        (VoxelizeScene passX passY passZ schedule s0).writes) ∧
    (∀ i j k,
      (VoxelizeScene passX passY passZ schedule s0).progress i = Invocation.written k →
      (VoxelizeScene passX passY passZ schedule s0).progress j = Invocation.written k →
      i = j) := by
  set fragments := passX ++ passY ++ passZ with hfr
  set s := VoxelizeScene passX passY passZ schedule s0 with hs
  have inv : VoxelInv fragments s :=
    VoxelInv_run fragments schedule _ (VoxelInv_start fragments s0)
  -- every invocation has finished
  have hdone : ∀ i, i < fragments.length → ∃ k, s.progress i = Invocation.written k := by
    intro i hi
    have hst := run_stage fragments i hi schedule
      { BuildAtomicBuffer s0 with writes := [], progress := fun _ => Invocation.pending }
    have h2 := hrun i hi
    have hstage : (s.progress i).stage = 2 := by
      have : (s.progress i).stage = min 2 (0 + schedule.count i) := hst
      omega
    cases hp : s.progress i with
    | pending => rw [hp] at hstage; simp [Invocation.stage] at hstage
    | claimed k => rw [hp] at hstage; simp [Invocation.stage] at hstage
    | written k => exact ⟨k, rfl⟩
  have hslot : ∀ i k, s.progress i = Invocation.written k → (s.progress i).slot = some k := by
    intro i k h; rw [h]; rfl
  -- the slots below the counter are exactly the stored ones
  have hmem : ∀ k, k ∈ s.writes.map Prod.fst ↔ k ∈ List.range s.atomicCounter := by
    intro k
    rw [inv.stored k, List.mem_range]
    constructor
    · rintro ⟨i, hi⟩
      exact (inv.below i k (hslot i k hi)).1
    · intro hk
      obtain ⟨i, hi⟩ := inv.claimedAll k hk
      obtain ⟨k1, hk1⟩ := hdone i (inv.below i k hi).2
      have : k1 = k := by rw [hk1] at hi; simpa [Invocation.slot] using hi
      exact ⟨i, this ▸ hk1⟩
  have hlen : s.atomicCounter = s.writes.length := by
    have hperm : (s.writes.map Prod.fst).Perm (List.range s.atomicCounter) :=
      (List.perm_ext_iff_of_nodup inv.once (List.nodup_range _)).mpr hmem
    have := hperm.length_eq
    simpa using this.symm
  have hcount : s.atomicCounter = fragments.length := by
    have hcard : (Finset.range fragments.length).card = (Finset.range s.atomicCounter).card := by
      apply Finset.card_bij (fun i _ => ((s.progress i).slot).getD 0)
      · intro i hi
        obtain ⟨k, hk⟩ := hdone i (Finset.mem_range.mp hi)
        rw [hslot i k hk]
        exact Finset.mem_range.mpr (inv.below i k (hslot i k hk)).1
      · intro i hi j hj h
        obtain ⟨k, hk⟩ := hdone i (Finset.mem_range.mp hi)
        obtain ⟨l, hl⟩ := hdone j (Finset.mem_range.mp hj)
        rw [hslot i k hk, hslot j l hl] at h
        simp only [Option.getD_some] at h
        subst h
        exact inv.distinct i j k (hslot i k hk) (hslot j k hl)
      · intro k hk
        obtain ⟨i, hi⟩ := inv.claimedAll k (Finset.mem_range.mp hk)
        exact ⟨i, Finset.mem_range.mpr (inv.below i k hi).2, by rw [hi]; rfl⟩
    simpa using hcard.symm
  refine ⟨hlen, hcount, inv.once, ?_, ?_⟩
  · intro i hi
    obtain ⟨k, hk⟩ := hdone i hi
    refine ⟨k, hk, ?_⟩
    have hkmem : k ∈ s.writes.map Prod.fst := (inv.stored k).mpr ⟨i, hk⟩
    obtain ⟨⟨k1, g⟩, hg, hk1⟩ := List.mem_map.mp hkmem
    simp only at hk1
    subst hk1
    obtain ⟨j, hj, hgj⟩ := inv.payload k1 g hg
    have hji : j = i := inv.distinct j i k1 (hslot j k1 hj) (hslot i k1 hk)
    subst hji
    have : fragments[j]? = some fragments[j] := List.getElem?_eq_getElem hi
    rw [this] at hgj
    injection hgj with hgj
    rw [hgj]
    exact hg
  · intro i j k hi hj
    exact inv.distinct i j k (hslot i k hi) (hslot j k hj)

/-- Three fragments whose invocations interleave as `2, 0, 1, 0, 2, 1`, starting
from a stale counter. -/
theorem VoxelizeScene_counter_equals_writes_witness :
    (VoxelizeScene [fragA] [fragB] [fragC] [2, 0, 1, 0, 2, 1] staleList).atomicCounter = 3 ∧
    (VoxelizeScene [fragA] [fragB] [fragC] [2, 0, 1, 0, 2, 1] staleList).writes.length = 3 :=
  have h := VoxelizeScene_counter_equals_writes [fragA] [fragB] [fragC] [2, 0, 1, 0, 2, 1]
    staleList (by decide)
  ⟨h.2.1, h.1.symm.trans h.2.1⟩

end VCT
